import Mathlib

/-!
Formal model of the UniFlow Uniswap-V4 liquidity service.

The definitions below are a shallow embedding of the TypeScript sources:

* `src/core/types.ts` — `UniswapV4MintService` (pool discovery, preflight
  validation, full-range tick computation, position minting);
* `src/core/policyConfig.ts` — `PolicyConfig` (declarative security policy);
* `src/constants.ts` — `UNISWAP_V4_DEPLOYMENTS`;
* `PolicyManager` — policy initialization against the remote Privy store.

External I/O (RPC reads, the custody service, the remote policy store) is
modelled by explicit oracle functions carried in environment records
(`ChainEnv`, `MintEnv`, `PolicyEnv`); the service code itself is translated
function by function.  JavaScript `BigInt` values are modelled as `Nat`
(they are non-negative in every reachable state here), JavaScript numbers
holding ticks as `Int`, and JavaScript strings as `String`.
-/

namespace Uniflow

/-- Lowercasing as used by `String.prototype.toLowerCase()` on the ASCII
addresses this service handles: character-wise `Char.toLower` over the
string contents. -/
def toLowerCase (s : String) : String := String.mk (s.data.map Char.toLower)

/-- Lexicographic comparison of character lists by numeric character value,
the semantics of the JavaScript `<` operator on the (ASCII) address strings
compared in `discoverPool`. -/
def ltChars : List Char → List Char → Bool
  | [], [] => false
  | [], _ :: _ => true
  | _ :: _, [] => false
  | a :: as, b :: bs =>
    if a.toNat < b.toNat then true
    else if b.toNat < a.toNat then false
    else ltChars as bs

/-- JavaScript string comparison `a < b` (lexicographic by character
value). -/
def strLt (a b : String) : Bool := ltChars a.data b.data

/-! Data model of the mint service (`src/core/types.ts`). -/

/-- Token metadata resolved by `getTokenInfo`. -/
structure TokenInfo where
  address : String
  symbol : String
  decimals : Nat
deriving DecidableEq

/-- Uniswap V4 pool key; field order as in the source. -/
structure PoolKey where
  currency0 : String
  currency1 : String
  fee : Nat
  tickSpacing : Int
  hooks : String
deriving DecidableEq

/-- Result of destructuring the `getSlot0` read (`[sqrtPriceX96, tick]`;
the two fee components are dropped by the source as well). -/
structure Slot0 where
  sqrtPriceX96 : Nat
  tick : Int
deriving DecidableEq

/-- Pool state assembled by `fetchPoolState`. -/
structure PoolState where
  poolId : String
  sqrtPriceX96 : Nat
  tick : Int
  liquidity : Nat
deriving DecidableEq

/-- Pool object of a `V4PoolDiscoveryResult`.  The source reports
`sqrtPriceX96` and `liquidity` as decimal strings; they are kept as `Nat`
here.  `poolId` is absent (`none`) on the `exists:false` placeholder.
The `exists` field of the source is named `poolExists` (`exists` is a Lean
keyword). -/
structure PoolInfo where
  poolExists : Bool
  poolId : Option String
  poolKey : PoolKey
  currentTick : Int
  sqrtPriceX96 : Nat
  liquidity : Nat
  token0Symbol : String
  token1Symbol : String
  token0Decimals : Nat
  token1Decimals : Nat
deriving DecidableEq

/-- Parameters of `discoverPool`. -/
structure V4PoolDiscoveryParams where
  token0 : String
  token1 : String
  chainId : Nat
  fee : Option Nat := none
  tickSpacing : Option Int := none
deriving DecidableEq

/-- Result of `discoverPool`. -/
structure V4PoolDiscoveryResult where
  success : Bool
  pool : Option PoolInfo := none
  error : Option String := none
deriving DecidableEq

/-- Native ETH sentinel address (`NATIVE_ETH_ADDRESS`). -/
def NATIVE_ETH_ADDRESS : String := "0x0000000000000000000000000000000000000000"

/-- Maximum `uint256`, used for unlimited approvals (`MAX_UINT256`). -/
def MAX_UINT256 : Nat := 2 ^ 256 - 1

/-- Fee tiers probed in order when no fee is requested (`FEE_TIERS`). -/
def FEE_TIERS : List (Nat × Int) := [(500, 10), (3000, 60), (10000, 200)]

/-- Default tick spacing for a fee tier (`getDefaultTickSpacing`). -/
def getDefaultTickSpacing (fee : Nat) : Int :=
  if fee = 100 then 1
  else if fee = 500 then 10
  else if fee = 3000 then 60
  else if fee = 10000 then 200
  else 60

/-- Chain-level environment: the supported-chain table `V4_CHAIN_CONFIGS`
(membership and the per-chain position-manager address) together with the
two kinds of chain reads the discovery path performs.  `tokenInfo` models
the ERC-20 `symbol`/`decimals` reads of `getTokenInfo` (the thrown message
on failure); `readPool` models the paired `getSlot0`/`getLiquidity` reads
of `fetchPoolState`. -/
structure ChainEnv where
  chains : Nat → Bool
  positionManagerAddress : Nat → String
  tokenInfo : String → Nat → Except String TokenInfo
  readPool : PoolKey → Nat → Except String (Slot0 × Nat)

/-- Token metadata lookup (`getTokenInfo`): lowercases the address, handles
the native-ETH sentinel without a chain read, and otherwise consults the
chain (the in-memory memoization of the source does not change the value
returned). -/
def getTokenInfo (env : ChainEnv) (tokenAddress : String) (chainId : Nat) :
    Except String TokenInfo :=
  let normalizedAddress := toLowerCase tokenAddress
  if normalizedAddress = NATIVE_ETH_ADDRESS then
    .ok { address := NATIVE_ETH_ADDRESS, symbol := "ETH", decimals := 18 }
  else
    env.tokenInfo normalizedAddress chainId

/-- Deterministic pool identifier computed from the pool key.  The source
uses `keccak256(abi.encode(poolKey))`; the digest is modelled by an
injective serialization of the key (two keys with identical fields always
yield the same identifier). -/
def poolIdOf (key : PoolKey) : String :=
  "pool:" ++ key.currency0 ++ ":" ++ key.currency1 ++ ":" ++ toString key.fee ++
    ":" ++ toString key.tickSpacing ++ ":" ++ key.hooks

/-- Pool state read (`fetchPoolState`).  Every failure of the underlying
reads is caught and converted to `none`, exactly like the zero
`sqrtPriceX96` sentinel for a non-existent pool. -/
def fetchPoolState (env : ChainEnv) (poolKey : PoolKey) (chainId : Nat) :
    Option PoolState :=
  match env.readPool poolKey chainId with
  | .error _ => none
  | .ok (slot0, liquidity) =>
    if slot0.sqrtPriceX96 = 0 then none
    else
      some { poolId := poolIdOf poolKey, sqrtPriceX96 := slot0.sqrtPriceX96,
             tick := slot0.tick, liquidity := liquidity }

/-- Canonical currency ordering of `discoverPool`:
`t0 < t1 ? [t0, t1] : [t1, t0]` on the lowercased addresses. -/
def sortedCurrencies (t0 t1 : String) : String × String :=
  if strLt t0 t1 then (t0, t1) else (t1, t0)

/-- Fee-tier probe loop of `discoverPool`: tries each tier in order,
returns the first tier whose pool exists, and otherwise the
`exists:false` placeholder built from the requested fee/tickSpacing (or
the 3000/60 defaults). -/
def tryFeeTiers (env : ChainEnv) (chainId : Nat) (currency0 currency1 : String)
    (token0Info token1Info : TokenInfo) (requestedFee : Option Nat)
    (requestedTickSpacing : Option Int) :
    List (Nat × Int) → V4PoolDiscoveryResult
  | [] =>
    let defaultFee := match requestedFee with
      | some f => f
      | none => 3000
    let defaultTickSpacing := match requestedTickSpacing with
      | some t => t
      | none =>
        match requestedFee with
        | some f => getDefaultTickSpacing f
        | none => 60
    { success := true,
      pool := some {
        poolExists := false,
        poolId := none,
        poolKey := { currency0 := currency0, currency1 := currency1,
                     fee := defaultFee, tickSpacing := defaultTickSpacing,
                     hooks := NATIVE_ETH_ADDRESS },
        currentTick := 0,
        sqrtPriceX96 := 0,
        liquidity := 0,
        token0Symbol := token0Info.symbol,
        token1Symbol := token1Info.symbol,
        token0Decimals := token0Info.decimals,
        token1Decimals := token1Info.decimals } }
  | (fee, tickSpacing) :: rest =>
    match fetchPoolState env
        { currency0 := currency0, currency1 := currency1, fee := fee,
          tickSpacing := tickSpacing, hooks := NATIVE_ETH_ADDRESS } chainId with
    | some poolState =>
      if 0 < poolState.sqrtPriceX96 then
        { success := true,
          pool := some {
            poolExists := true,
            poolId := some poolState.poolId,
            poolKey := { currency0 := currency0, currency1 := currency1,
                         fee := fee, tickSpacing := tickSpacing,
                         hooks := NATIVE_ETH_ADDRESS },
            currentTick := poolState.tick,
            sqrtPriceX96 := poolState.sqrtPriceX96,
            liquidity := poolState.liquidity,
            token0Symbol := token0Info.symbol,
            token1Symbol := token1Info.symbol,
            token0Decimals := token0Info.decimals,
            token1Decimals := token1Info.decimals } }
      else
        tryFeeTiers env chainId currency0 currency1 token0Info token1Info
          requestedFee requestedTickSpacing rest
    | none =>
      tryFeeTiers env chainId currency0 currency1 token0Info token1Info
        requestedFee requestedTickSpacing rest

/-- Continuation of `discoverPool` after address canonicalization: the
token-metadata reads, fee-tier selection (including the ambiguous
`tickSpacing` without `fee` rejection) and the probe loop.  Failures of
the token-metadata reads are surfaced through the surrounding catch as a
failure result carrying the thrown message. -/
def discoverPoolSorted (env : ChainEnv) (chainId : Nat)
    (currency0 currency1 : String) (fee : Option Nat)
    (tickSpacing : Option Int) : V4PoolDiscoveryResult :=
  match getTokenInfo env currency0 chainId with
  | .error e => { success := false, error := some e }
  | .ok token0Info =>
    match getTokenInfo env currency1 chainId with
    | .error e => { success := false, error := some e }
    | .ok token1Info =>
      match fee with
      | some requestedFee =>
        tryFeeTiers env chainId currency0 currency1 token0Info
          token1Info (some requestedFee) tickSpacing
          [(requestedFee,
            match tickSpacing with
            | some t => t
            | none => getDefaultTickSpacing requestedFee)]
      | none =>
        match tickSpacing with
        | some _ =>
          { success := false,
            error := some "tickSpacing cannot be specified without fee. Please provide both or neither." }
        | none =>
          tryFeeTiers env chainId currency0 currency1 token0Info
            token1Info none none FEE_TIERS

/-- Pool discovery (`discoverPool`): chain validation, address
normalization and sorting, the identical-address guard, then the
`discoverPoolSorted` continuation on the canonical pair. -/
def discoverPool (env : ChainEnv) (params : V4PoolDiscoveryParams) :
    V4PoolDiscoveryResult :=
  if env.chains params.chainId = false then
    { success := false,
      error := some ("Unsupported chain ID: " ++ toString params.chainId) }
  else
    let t0 := toLowerCase params.token0
    let t1 := toLowerCase params.token1
    if t0 = t1 then
      { success := false,
        error := some "token0 and token1 must be different addresses" }
    else
      discoverPoolSorted env params.chainId (sortedCurrencies t0 t1).1
        (sortedCurrencies t0 t1).2 params.fee params.tickSpacing

/-! Full-range tick computation.  `calculateFullRangeTicks` delegates to
`nearestUsableTick` of the `@uniswap/v3-sdk` dependency, embedded here from
that library: `Math.round(tick / tickSpacing) * tickSpacing`, then moved one
spacing inward if the rounded multiple falls outside the global tick
bounds.  `Math.round x = Math.floor (x + 1/2)`, reproduced on integers by
`jsRound` below (exact for every division arising from these bounds). -/

/-- JavaScript `Math.round (a / b)` for a positive divisor `b`:
`⌊a / b + 1/2⌋ = ⌊(2a + b) / 2b⌋` (floor division). -/
def jsRound (a b : Int) : Int := Int.fdiv (2 * a + b) (2 * b)

/-- Global minimum tick of the protocol (`MIN_TICK`). -/
def MIN_TICK : Int := -887272

/-- Global maximum tick of the protocol (`MAX_TICK`). -/
def MAX_TICK : Int := 887272

/-- Rounding of a tick to the nearest usable multiple of `tickSpacing`
(`nearestUsableTick` of `@uniswap/v3-sdk`; the library binds the rounded
multiple once, written out here at each use). -/
def nearestUsableTick (tick : Int) (tickSpacing : Int) : Int :=
  if jsRound tick tickSpacing * tickSpacing < MIN_TICK then
    jsRound tick tickSpacing * tickSpacing + tickSpacing
  else if jsRound tick tickSpacing * tickSpacing > MAX_TICK then
    jsRound tick tickSpacing * tickSpacing - tickSpacing
  else
    jsRound tick tickSpacing * tickSpacing

/-- Result of `calculateFullRangeTicks`. -/
structure TickRange where
  tickLower : Int
  tickUpper : Int
deriving DecidableEq

/-- Full-range tick bounds for a tick spacing
(`calculateFullRangeTicks`). -/
def calculateFullRangeTicks (tickSpacing : Int) : TickRange :=
  { tickLower := nearestUsableTick MIN_TICK tickSpacing,
    tickUpper := nearestUsableTick MAX_TICK tickSpacing }

/-! Mint-position model. -/

/-- Session data held by the wallet service. -/
structure Session where
  userId : String
  walletId : String
  walletAddress : String
deriving DecidableEq

/-- Result record of `checkBalance`. -/
structure BalanceCheck where
  sufficient : Bool
  balance : Nat
  required : Nat
deriving DecidableEq

/-- Parameters of `walletService.transact`.  The source field `to` is a
Lean keyword and is named `toAddress` here. -/
structure TxParams where
  toAddress : String
  value : Nat
  data : String
  chainId : Nat
deriving DecidableEq

/-- Result of `walletService.transact`. -/
structure WalletTransactResult where
  success : Bool
  hash : Option String := none
  error : Option String := none
deriving DecidableEq

/-- Input handed by `mintPosition` to the SDK position assembly
(`new Pool(...)` plus `Position.fromAmounts`): the discovered pool state,
the full-range ticks and the desired amounts mapped to canonical currency
order. -/
structure AssemblyInput where
  poolKey : PoolKey
  sqrtPriceX96 : Nat
  liquidity : Nat
  currentTick : Int
  tickLower : Int
  tickUpper : Int
  amount0 : Nat
  amount1 : Nat
deriving DecidableEq

/-- Output of the SDK position assembly as consumed by `mintPosition`:
the derived position liquidity and the `addCallParameters` calldata and
native value.  `amount0`/`amount1` are the SDK-derived mint amounts of the
assembled position (`position.mintAmounts`); the service never reads
them. -/
structure AssemblyOutput where
  liquidity : Nat
  amount0 : Nat
  amount1 : Nat
  calldata : String
  value : Nat
deriving DecidableEq

/-- Environment of `mintPosition`: the chain reads of discovery plus the
wallet-session lookup, the balance and allowance reads of the preflight
checks, the SDK position assembly (external `@uniswap/v4-sdk` code,
abstracted as an oracle on the input the service builds for it) and the
custody transaction boundary.  Slippage percent and deadline only feed
`addCallParameters` and are folded into the `assemble` oracle. -/
structure MintEnv extends ChainEnv where
  getSession : String → Option Session
  getBalance : String → String → Nat → Except String Nat
  getAllowance : String → String → String → Nat → Except String Nat
  assemble : AssemblyInput → AssemblyOutput
  transact : String → TxParams → WalletTransactResult

/-- Balance check (`checkBalance`): reads the native or ERC-20 balance and
reports sufficiency against the required amount; a read failure becomes
the thrown `Failed to check balance` error. -/
def checkBalance (env : MintEnv) (walletAddress token : String) (amount : Nat)
    (chainId : Nat) : Except String BalanceCheck :=
  match env.getBalance walletAddress token chainId with
  | .error _ => .error ("Failed to check balance for " ++ token)
  | .ok balance =>
    .ok { sufficient := decide (amount ≤ balance), balance := balance,
          required := amount }

/-- Allowance check (`checkAllowance`): native ETH short-circuits to the
maximal allowance without a chain read; an ERC-20 read failure becomes the
thrown `Failed to check allowance` error. -/
def checkAllowance (env : MintEnv) (walletAddress token spender : String)
    (chainId : Nat) : Except String Nat :=
  if token = NATIVE_ETH_ADDRESS then .ok MAX_UINT256
  else
    match env.getAllowance walletAddress token spender chainId with
    | .error _ => .error ("Failed to check allowance for " ++ token)
    | .ok allowance => .ok allowance

/-- Structured identity of the error messages `mintPosition` can return;
each constructor names one template of the source and carries exactly the
data that template interpolates. -/
inductive MintError where
  | unsupportedChain (chainId : Nat)
  | sessionNotFound
  | noPoolFound
  | balanceCheckFailed (token : String)
  | insufficientBalance (symbol : String) (decimals : Nat) (required : Nat)
      (available : Nat)
  | allowanceCheckFailed (token : String)
  | notApproved (symbol : String) (token : String)
  | transactionFailed (message : Option String)
deriving DecidableEq

/-- Expected-position record of a successful mint result. -/
structure ExpectedPosition where
  poolKey : PoolKey
  tickLower : Int
  tickUpper : Int
  liquidity : Nat
  amount0 : Nat
  amount1 : Nat
deriving DecidableEq

/-- Result of `mintPosition`. -/
structure V4MintResult where
  success : Bool
  txHash : Option String := none
  chainId : Option Nat := none
  expectedPosition : Option ExpectedPosition := none
  explorer : Option String := none
  error : Option MintError := none
deriving DecidableEq

/-- Parameters of `mintPosition` (simple mode).  Desired amounts are
already in smallest token units (the source converts the decimal strings
with `BigInt`); `slippageTolerance`/`deadline` only feed
`addCallParameters` and are folded into the `assemble` oracle of
`MintEnv`. -/
structure V4MintSimpleParams where
  token0 : String
  token1 : String
  amount0Desired : Nat
  amount1Desired : Nat
  chainId : Nat
deriving DecidableEq

/-- Mapping of the caller-supplied desired amounts onto the pool's sorted
currency order (`tokensSwapped` and the two conditional assignments of
`mintPosition`): when the lowercased caller `token0` is not the pool's
`currency0`, the amounts swap places. -/
def amountsForPool (token0 currency0 : String) (amount0Desired amount1Desired : Nat) :
    Nat × Nat :=
  if toLowerCase token0 = toLowerCase currency0 then
    (amount0Desired, amount1Desired)
  else
    (amount1Desired, amount0Desired)

/-- Allowance gate for one token leg of `mintPosition` step 4: skipped for
native ETH, otherwise the allowance is read and compared against the
desired amount of that leg; a read failure surfaces as the thrown
message, an insufficient allowance as the `not approved` error. -/
def allowanceGate (env : MintEnv) (walletAddress token symbol spender : String)
    (amountWei : Nat) (chainId : Nat) : Except MintError Unit :=
  if token = NATIVE_ETH_ADDRESS then .ok ()
  else
    match checkAllowance env walletAddress token spender chainId with
    | .error _ => .error (.allowanceCheckFailed token)
    | .ok allowance =>
      if allowance < amountWei then .error (.notApproved symbol token)
      else .ok ()

/-- Data that survives the preflight phase of `mintPosition` (steps 1-5):
the session, the discovered pool, the canonical-order amounts and the
full-range ticks. -/
structure MintPreflight where
  session : Session
  pool : PoolInfo
  amount0Wei : Nat
  amount1Wei : Nat
  tickLower : Int
  tickUpper : Int
deriving DecidableEq

/-- Steps 3-5 of `mintPosition` once the pool is discovered: the two
balance checks (both performed, the token0 shortfall reported first),
the two allowance gates against the canonical-order desired amounts, and
the full-range tick computation. -/
def mintChecks (env : MintEnv) (session : Session) (pool : PoolInfo)
    (chainId : Nat) (amount0Wei amount1Wei : Nat) :
    Except MintError MintPreflight :=
  match checkBalance env session.walletAddress pool.poolKey.currency0
      amount0Wei chainId with
  | .error _ => .error (.balanceCheckFailed pool.poolKey.currency0)
  | .ok balance0Check =>
    match checkBalance env session.walletAddress pool.poolKey.currency1
        amount1Wei chainId with
    | .error _ => .error (.balanceCheckFailed pool.poolKey.currency1)
    | .ok balance1Check =>
      if balance0Check.sufficient = false then
        .error (.insufficientBalance pool.token0Symbol pool.token0Decimals
          balance0Check.required balance0Check.balance)
      else if balance1Check.sufficient = false then
        .error (.insufficientBalance pool.token1Symbol pool.token1Decimals
          balance1Check.required balance1Check.balance)
      else
        match allowanceGate env session.walletAddress pool.poolKey.currency0
            pool.token0Symbol (env.positionManagerAddress chainId) amount0Wei
            chainId with
        | .error e => .error e
        | .ok _ =>
          match allowanceGate env session.walletAddress pool.poolKey.currency1
              pool.token1Symbol (env.positionManagerAddress chainId) amount1Wei
              chainId with
          | .error e => .error e
          | .ok _ =>
            .ok { session := session, pool := pool,
                  amount0Wei := amount0Wei, amount1Wei := amount1Wei,
                  tickLower := (calculateFullRangeTicks pool.poolKey.tickSpacing).tickLower,
                  tickUpper := (calculateFullRangeTicks pool.poolKey.tickSpacing).tickUpper }

/-- Preflight phase of `mintPosition` (steps 1-5 of the source): chain
and session validation, pool discovery (collapsing every discovery
failure and the `exists:false` outcome into the single `no pool found`
error), amount mapping to canonical order, the two balance checks (both
performed, token0 reported first), the two allowance gates, and the
full-range tick computation. -/
def mintPreflight (env : MintEnv) (userId : String) (params : V4MintSimpleParams) :
    Except MintError MintPreflight :=
  if env.chains params.chainId = false then
    .error (.unsupportedChain params.chainId)
  else
    match env.getSession userId with
    | none => .error .sessionNotFound
    | some session =>
      let poolDiscovery := discoverPool env.toChainEnv
        { token0 := toLowerCase params.token0, token1 := toLowerCase params.token1,
          chainId := params.chainId, fee := none, tickSpacing := none }
      match poolDiscovery.pool with
      | none => .error .noPoolFound
      | some pool =>
        if poolDiscovery.success = false then .error .noPoolFound
        else if pool.poolExists = false then .error .noPoolFound
        else
          mintChecks env session pool params.chainId
            (amountsForPool params.token0 pool.poolKey.currency0
              params.amount0Desired params.amount1Desired).1
            (amountsForPool params.token0 pool.poolKey.currency0
              params.amount0Desired params.amount1Desired).2

/-- Assembly input built by `mintPosition` for the SDK (step 6): pool
state, full-range ticks and the canonical-order amounts. -/
def mintAssemblyInput (pre : MintPreflight) : AssemblyInput :=
  { poolKey := pre.pool.poolKey, sqrtPriceX96 := pre.pool.sqrtPriceX96,
    liquidity := pre.pool.liquidity, currentTick := pre.pool.currentTick,
    tickLower := pre.tickLower, tickUpper := pre.tickUpper,
    amount0 := pre.amount0Wei, amount1 := pre.amount1Wei }

/-- Block-explorer base URL per chain (`getExplorerUrl`). -/
def explorerBase (chainId : Nat) : String :=
  if chainId = 1 then "https://etherscan.io"
  else if chainId = 56 then "https://bscscan.com"
  else if chainId = 8453 then "https://basescan.org"
  else if chainId = 42161 then "https://arbiscan.io"
  else if chainId = 130 then "https://unichain.org/explorer"
  else "https://etherscan.io"

/-- Explorer URL of a transaction (`getExplorerUrl`). -/
def getExplorerUrl (txHash : String) (chainId : Nat) : String :=
  explorerBase chainId ++ "/tx/" ++ txHash

/-- Position mint (`mintPosition`): the preflight phase, then the SDK
assembly on `mintAssemblyInput` and the custody transaction; a successful
send yields the success record with the expected position (whose
`amount0`/`amount1` are the canonical-order desired amounts, as in the
source). -/
def mintPosition (env : MintEnv) (userId : String) (params : V4MintSimpleParams) :
    V4MintResult :=
  match mintPreflight env userId params with
  | .error e => { success := false, error := some e }
  | .ok pre =>
    let asm := env.assemble (mintAssemblyInput pre)
    let result := env.transact userId
      { toAddress := env.positionManagerAddress params.chainId, value := asm.value,
        data := asm.calldata, chainId := params.chainId }
    match result.success, result.hash with
    | true, some hash =>
      { success := true, txHash := some hash, chainId := some params.chainId,
        expectedPosition := some {
          poolKey := pre.pool.poolKey, tickLower := pre.tickLower,
          tickUpper := pre.tickUpper, liquidity := asm.liquidity,
          amount0 := pre.amount0Wei, amount1 := pre.amount1Wei },
        explorer := some (getExplorerUrl hash params.chainId) }
    | _, _ => { success := false, error := some (.transactionFailed result.error) }

/-! Policy model (`src/core/policyConfig.ts`, `src/constants.ts` and
`PolicyManager`). -/

/-- Condition value: the Privy API accepts a single string or a string
array. -/
inductive PolicyValue where
  | str (s : String)
  | arr (values : List String)
deriving DecidableEq

/-- Declarative policy condition. -/
structure PolicyCondition where
  field_source : String
  field : String
  operator : String
  value : PolicyValue
deriving DecidableEq

/-- Declarative policy rule. -/
structure PolicyRule where
  name : String
  method : String
  conditions : List PolicyCondition
  action : String
deriving DecidableEq

/-- Policy definition as posted to the remote store
(`PolicyConfig.getPolicyDefinition`). -/
structure PolicyDefinition where
  version : String
  name : String
  chain_type : String
  owner_id : String
  rules : List PolicyRule
deriving DecidableEq

/-- Policy record as returned by the remote store. -/
structure Policy where
  id : String
  version : String
  name : String
  chain_type : String
  owner_id : String
  rules : List PolicyRule
  created_at : Nat
deriving DecidableEq

/-- One deployment row of `UNISWAP_V4_DEPLOYMENTS`. -/
structure V4Deployment where
  chainId : Nat
  poolManager : String
  positionManager : String
  stateView : String
deriving DecidableEq

/-- Official Uniswap V4 deployment table (`UNISWAP_V4_DEPLOYMENTS` in
`src/constants.ts`), in declaration order. -/
def UNISWAP_V4_DEPLOYMENTS : List V4Deployment :=
  [ { chainId := 1,
      poolManager := "0x000000000004444c5dc75cB358380D2e3dE08A90",
      positionManager := "0xbd216513d74c8cf14cf4747e6aaa6420ff64ee9e",
      stateView := "0x7ffe42c4a5deea5b0fec41c94c136cf115597227" },
    { chainId := 56,
      poolManager := "0x28e2ea090877bf75740558f6bfb36a5ffee9e9df",
      positionManager := "0x7a4a5c919ae2541aed11041a1aeee68f1287f95b",
      stateView := "0xd13dd3d6e93f276fafc9db9e6bb47c1180aee0c4" },
    { chainId := 8453,
      poolManager := "0x498581ff718922c3f8e6a244956af099b2652b2b",
      positionManager := "0x7c5f5a4bbd8fd63184577525326123b519429bdc",
      stateView := "0xa3c0c9b65bad0b08107aa264b0f3db444b867a71" },
    { chainId := 42161,
      poolManager := "0x360e68faccca8ca495c1b759fd9eee466db9fb32",
      positionManager := "0xd88f38f930b7952f2db2432cb002e7abbf3dd869",
      stateView := "0x76fd297e2d437cd7f76d50f01afe6160f86e9990" },
    { chainId := 130,
      poolManager := "0x1f98400000000000000000000000000000000004",
      positionManager := "0x4529a01c7a0410167c5740c487a8de60232617bf",
      stateView := "0x86e8631a016f9068c3f085faf484ee3f5fdee8f2" } ]

namespace PolicyConfig

/-- Chain allowlist condition (`getChainAllowlistCondition`): the
supported chain ids as strings. -/
def getChainAllowlistCondition : PolicyCondition :=
  { field_source := "ethereum_transaction", field := "chain_id",
    operator := "in",
    value := .arr (UNISWAP_V4_DEPLOYMENTS.map (fun d => toString d.chainId)) }

/-- Contract allowlist condition (`getContractAllowlistCondition`): per
deployment the pool manager, position manager and state view, checksummed
by `getAddress` of `viem` (EIP-55; abstracted as a string function). -/
def getContractAllowlistCondition (getAddress : String → String) : PolicyCondition :=
  { field_source := "ethereum_transaction", field := "to", operator := "in",
    value := .arr
      ((UNISWAP_V4_DEPLOYMENTS.map (fun d =>
        [getAddress d.poolManager, getAddress d.positionManager,
         getAddress d.stateView])).flatten) }

/-- Value limit condition (`getValueLimitCondition`): at most 0.1 ETH per
transaction. -/
def getValueLimitCondition : PolicyCondition :=
  { field_source := "ethereum_transaction", field := "value",
    operator := "lte", value := .str "100000000000000000" }

/-- Composite allow rule (`getCompositeAllowRule`): the three conditions
AND-ed under one `ALLOW` action. -/
def getCompositeAllowRule (getAddress : String → String) : PolicyRule :=
  { name := "UniFlow Composite Security Rule",
    method := "eth_sendTransaction",
    conditions := [getChainAllowlistCondition,
                   getContractAllowlistCondition getAddress,
                   getValueLimitCondition],
    action := "ALLOW" }

/-- Complete policy definition (`getPolicyDefinition`). -/
def getPolicyDefinition (getAddress : String → String) (ownerId : String) :
    PolicyDefinition :=
  { version := "1.0", name := "UniFlow Conservative Security Policy",
    chain_type := "ethereum", owner_id := ownerId,
    rules := [getCompositeAllowRule getAddress] }

end PolicyConfig

/-- Result record of `PolicyManager.initialize`
(`PolicyCreationResult`). -/
structure PolicyCreationResult where
  success : Bool
  policyIds : Option (List String) := none
  error : Option String := none
deriving DecidableEq

/-- Instance state of `PolicyManager` (`policyIds` and `initialized`). -/
structure PMState where
  policyIds : List String := []
  initialized : Bool := false
deriving DecidableEq

/-- Remote policy store as seen through the create path: the policies
created so far and a counter from which the store assigns fresh
identifiers. -/
structure RemoteStore where
  nextId : Nat := 0
  created : List Policy := []
deriving DecidableEq

/-- Identifier the modelled remote store assigns to the n-th created
policy. -/
def assignedPolicyId (n : Nat) : String := "policy-" ++ toString n

/-- Environment of `PolicyManager`: the configuration read from the
process environment (an unset or empty variable is `none`), the abstract
EIP-55 checksummer used by `PolicyConfig`, and the remote `GET` of an
existing policy. -/
structure PolicyEnv where
  signerId : Option String
  appId : Option String
  appSecret : Option String
  pinnedPolicyId : Option String
  getAddress : String → String
  getPolicy : String → Except String Policy

/-- Remote policy creation (`createPolicy`): posts
`PolicyConfig.getPolicyDefinition(ownerId)` and receives the created
policy back; the store assigns the identifier and records the new
policy. -/
def createPolicy (env : PolicyEnv) (ownerId : String) (store : RemoteStore) :
    Policy × RemoteStore :=
  let policyDef := PolicyConfig.getPolicyDefinition env.getAddress ownerId
  let policy : Policy :=
    { id := assignedPolicyId store.nextId, version := policyDef.version,
      name := policyDef.name, chain_type := policyDef.chain_type,
      owner_id := policyDef.owner_id, rules := policyDef.rules,
      created_at := 0 }
  (policy, { nextId := store.nextId + 1, created := store.created ++ [policy] })

/-- Validation of a fetched policy against the expected configuration
(`validatePolicy`): the signer must be configured, the owner must equal
it, and the rule count and first-rule condition count must match the
locally computed expected policy; any mismatch throws. -/
def validatePolicy (env : PolicyEnv) (policy : Policy) : Except String Unit :=
  match env.signerId with
  | none => .error "PRIVY_SIGNER_ID environment variable is not set"
  | some expectedSignerId =>
    if policy.owner_id ≠ expectedSignerId then
      .error ("Policy owner mismatch: expected " ++ expectedSignerId ++
        " but policy is owned by " ++ policy.owner_id ++
        ". This policy cannot be used for security reasons.")
    else
      let expected := PolicyConfig.getPolicyDefinition env.getAddress expectedSignerId
      if policy.rules.length ≠ expected.rules.length then
        .error ("Policy rule count mismatch: expected " ++
          toString expected.rules.length ++ " rule(s), but policy has " ++
          toString policy.rules.length ++ " rule(s).")
      else
        let expectedConditionCount := match expected.rules.head? with
          | some r => r.conditions.length
          | none => 0
        let actualConditionCount := match policy.rules.head? with
          | some r => r.conditions.length
          | none => 0
        if expectedConditionCount ≠ actualConditionCount then
          .error ("Policy condition count mismatch: expected " ++
            toString expectedConditionCount ++ " condition(s), but policy has " ++
            toString actualConditionCount ++ " condition(s).")
        else .ok ()

/-- Policy initialization (`PolicyManager.initialize`; the name
`initialize` is reserved in Lean).  With a pinned policy id the policy is
fetched, `policyIds` is assigned before validation (as in the source) and
validation failures surface as a failure result; without a pinned id a
new policy is created remotely.  Every thrown error is caught and turned
into a failure result. -/
def initPolicies (env : PolicyEnv) (st : PMState) (store : RemoteStore) :
    PolicyCreationResult × PMState × RemoteStore :=
  match env.signerId with
  | none =>
    ({ success := false,
       error := some "PRIVY_SIGNER_ID not configured. Please set this environment variable to your authorization key ID." },
     st, store)
  | some signerId =>
    if env.appId = none ∨ env.appSecret = none then
      ({ success := false,
         error := some "Privy credentials not configured. Please set PRIVY_APP_ID and PRIVY_APP_SECRET environment variables." },
       st, store)
    else
      match env.pinnedPolicyId with
      | some existingPolicyId =>
        match env.getPolicy existingPolicyId with
        | .error e => ({ success := false, error := some e }, st, store)
        | .ok policy =>
          let st1 : PMState := { st with policyIds := [policy.id] }
          match validatePolicy env policy with
          | .error e => ({ success := false, error := some e }, st1, store)
          | .ok _ =>
            ({ success := true, policyIds := some [policy.id] },
             { policyIds := [policy.id], initialized := true }, store)
      | none =>
        let created := createPolicy env signerId store
        ({ success := true, policyIds := some [created.1.id] },
         { policyIds := [created.1.id], initialized := true }, created.2)

end Uniflow

namespace Uniflow

/-! Helper lemmas on the string comparison. -/

/-- Character-list comparison is asymmetric. -/
theorem ltChars_asymm : ∀ l m : List Char, ltChars l m = true → ltChars m l = false
  | [], [], h => by simp [ltChars] at h
  | [], _ :: _, _ => by simp [ltChars]
  | _ :: _, [], h => by simp [ltChars] at h
  | a :: as, b :: bs, h => by
    by_cases hab : a.toNat < b.toNat
    · have hba : ¬ b.toNat < a.toNat := by omega
      simp [ltChars, hba, hab]
    · by_cases hba : b.toNat < a.toNat
      · simp [ltChars, hab, hba] at h
      · have hab2 : ¬ a.toNat < b.toNat := hab
        simp only [ltChars, if_neg hab2, if_neg hba] at h
        simp only [ltChars, if_neg hba, if_neg hab2]
        exact ltChars_asymm as bs h

/-- Character-list comparison is connex: two lists unrelated in either
direction are equal. -/
theorem ltChars_connex : ∀ l m : List Char,
    ltChars l m = false → ltChars m l = false → l = m
  | [], [], _, _ => rfl
  | [], _ :: _, h, _ => by simp [ltChars] at h
  | _ :: _, [], _, h2 => by simp [ltChars] at h2
  | a :: as, b :: bs, h, h2 => by
    by_cases hab : a.toNat < b.toNat
    · simp [ltChars, hab] at h
    · by_cases hba : b.toNat < a.toNat
      · simp [ltChars, hba] at h2
      · have hco : a = b := Char.ext (UInt32.toNat.inj (show a.val.toNat = b.val.toNat by
          have hab2 : ¬ a.toNat < b.toNat := hab
          have hba2 : ¬ b.toNat < a.toNat := hba
          simp only [Char.toNat] at hab2 hba2
          omega))
        simp only [ltChars, if_neg hab, if_neg hba] at h
        simp only [ltChars, if_neg hba, if_neg hab] at h2
        rw [hco, ltChars_connex as bs h h2]

/-- Strings with equal character data are equal. -/
theorem string_ext {s t : String} (h : s.data = t.data) : s = t := by
  cases s
  cases t
  exact congrArg String.mk h

/-- String comparison is asymmetric. -/
theorem strLt_asymm {a b : String} (h : strLt a b = true) : strLt b a = false :=
  ltChars_asymm a.data b.data h

/-- Distinct strings are related by `strLt` in one direction. -/
theorem strLt_connex {a b : String} (hne : a ≠ b) :
    strLt a b = true ∨ strLt b a = true := by
  by_cases h1 : strLt a b = true
  · exact Or.inl h1
  · by_cases h2 : strLt b a = true
    · exact Or.inr h2
    · exact absurd (string_ext (ltChars_connex a.data b.data
        (Bool.not_eq_true _ ▸ h1) (Bool.not_eq_true _ ▸ h2))) hne

/-- Sorting a pair of distinct strings does not depend on the argument
order. -/
theorem sortedCurrencies_comm {t0 t1 : String} (hne : t0 ≠ t1) :
    sortedCurrencies t0 t1 = sortedCurrencies t1 t0 := by
  unfold sortedCurrencies
  rcases strLt_connex hne with h | h
  · rw [h, strLt_asymm h]
    simp
  · rw [h, strLt_asymm h]
    simp

/-- The sorted pair lists the two inputs, strictly ordered by `strLt`. -/
theorem sortedCurrencies_spec {t0 t1 : String} (hne : t0 ≠ t1) :
    (sortedCurrencies t0 t1 = (t0, t1) ∨ sortedCurrencies t0 t1 = (t1, t0)) ∧
    strLt (sortedCurrencies t0 t1).1 (sortedCurrencies t0 t1).2 = true := by
  unfold sortedCurrencies
  by_cases hcase : strLt t0 t1 = true
  · rw [if_pos hcase]
    exact ⟨Or.inl rfl, hcase⟩
  · rw [if_neg hcase]
    rcases strLt_connex hne with h | h
    · exact absurd h hcase
    · exact ⟨Or.inr rfl, h⟩

/-! Helper lemmas on pool discovery. -/

/-- The probe loop always reports success: a pool is either found or the
`exists:false` placeholder is returned. -/
theorem tryFeeTiers_success (env : ChainEnv) (chainId : Nat) (c0 c1 : String)
    (i0 i1 : TokenInfo) (rf : Option Nat) (rts : Option Int) :
    ∀ tiers : List (Nat × Int),
      (tryFeeTiers env chainId c0 c1 i0 i1 rf rts tiers).success = true
  | [] => by simp [tryFeeTiers]
  | (fee, ts) :: rest => by
    simp only [tryFeeTiers]
    split
    · split
      · rfl
      · exact tryFeeTiers_success env chainId c0 c1 i0 i1 rf rts rest
    · exact tryFeeTiers_success env chainId c0 c1 i0 i1 rf rts rest

/-- Every pool object produced by the probe loop carries the canonical
currencies it was probed with. -/
theorem tryFeeTiers_pool_key (env : ChainEnv) (chainId : Nat) (c0 c1 : String)
    (i0 i1 : TokenInfo) (rf : Option Nat) (rts : Option Int) :
    ∀ (tiers : List (Nat × Int)) (pool : PoolInfo),
      (tryFeeTiers env chainId c0 c1 i0 i1 rf rts tiers).pool = some pool →
      pool.poolKey.currency0 = c0 ∧ pool.poolKey.currency1 = c1
  | [], pool, h => by
    simp [tryFeeTiers] at h
    subst h
    exact ⟨rfl, rfl⟩
  | (fee, ts) :: rest, pool, h => by
    simp only [tryFeeTiers] at h
    split at h
    · split at h
      · simp only [Option.some.injEq] at h
        subst h
        exact ⟨rfl, rfl⟩
      · exact tryFeeTiers_pool_key env chainId c0 c1 i0 i1 rf rts rest pool h
    · exact tryFeeTiers_pool_key env chainId c0 c1 i0 i1 rf rts rest pool h

/-- Every pool object returned by the sorted-discovery continuation
carries the canonical currencies. -/
theorem discoverPoolSorted_pool_key (env : ChainEnv) (chainId : Nat)
    (c0 c1 : String) (fee : Option Nat) (ts : Option Int) (pool : PoolInfo)
    (h : (discoverPoolSorted env chainId c0 c1 fee ts).pool = some pool) :
    pool.poolKey.currency0 = c0 ∧ pool.poolKey.currency1 = c1 := by
  unfold discoverPoolSorted at h
  cases hti0 : getTokenInfo env c0 chainId with
  | error e => rw [hti0] at h; simp at h
  | ok i0 =>
    rw [hti0] at h
    cases hti1 : getTokenInfo env c1 chainId with
    | error e => rw [hti1] at h; simp at h
    | ok i1 =>
      rw [hti1] at h
      cases fee with
      | some f =>
        exact tryFeeTiers_pool_key env chainId c0 c1 i0 i1 (some f) ts _ pool h
      | none =>
        cases ts with
        | some t => simp at h
        | none =>
          exact tryFeeTiers_pool_key env chainId c0 c1 i0 i1 none none _ pool h

/-- Reduction of `discoverPool` to its sorted continuation when the chain
is supported and the normalized tokens differ. -/
theorem discoverPool_reduce (env : ChainEnv) (tokenA tokenB : String)
    (chainId : Nat) (fee : Option Nat) (ts : Option Int)
    (hch : env.chains chainId = true)
    (hne : toLowerCase tokenA ≠ toLowerCase tokenB) :
    discoverPool env ⟨tokenA, tokenB, chainId, fee, ts⟩ =
      discoverPoolSorted env chainId
        (sortedCurrencies (toLowerCase tokenA) (toLowerCase tokenB)).1
        (sortedCurrencies (toLowerCase tokenA) (toLowerCase tokenB)).2 fee ts := by
  simp [discoverPool, hch, hne]

/-- C5: pool discovery canonicalizes the currency pair — for any token
order the two calls agree entirely (hence on `poolKey.currency0`), and
whenever a pool object is returned its `currency0`/`currency1` are the
two lowercased input addresses with `currency0` strictly smaller under
the lowercased lexicographic comparison. -/
theorem discoverPool_canonical_order (env : ChainEnv) (tokenA tokenB : String)
    (chainId : Nat) (fee : Option Nat) (ts : Option Int) :
    discoverPool env ⟨tokenA, tokenB, chainId, fee, ts⟩ =
      discoverPool env ⟨tokenB, tokenA, chainId, fee, ts⟩ ∧
    ∀ pool,
      (discoverPool env ⟨tokenA, tokenB, chainId, fee, ts⟩).pool = some pool →
      ((pool.poolKey.currency0 = toLowerCase tokenA ∧
        pool.poolKey.currency1 = toLowerCase tokenB) ∨
       (pool.poolKey.currency0 = toLowerCase tokenB ∧
        pool.poolKey.currency1 = toLowerCase tokenA)) ∧
      strLt pool.poolKey.currency0 pool.poolKey.currency1 = true := by
  by_cases hch : env.chains chainId = true
  · by_cases heq : toLowerCase tokenA = toLowerCase tokenB
    · constructor
      · have e1 : discoverPool env ⟨tokenA, tokenB, chainId, fee, ts⟩ =
            { success := false,
              error := some "token0 and token1 must be different addresses" } := by
          simp [discoverPool, hch, heq]
        have e2 : discoverPool env ⟨tokenB, tokenA, chainId, fee, ts⟩ =
            { success := false,
              error := some "token0 and token1 must be different addresses" } := by
          simp [discoverPool, hch, heq]
        rw [e1, e2]
      · intro pool hp
        simp [discoverPool, hch, heq] at hp
    · have hne : toLowerCase tokenA ≠ toLowerCase tokenB := heq
      have hcomm := sortedCurrencies_comm hne
      constructor
      · rw [discoverPool_reduce env tokenA tokenB chainId fee ts hch hne,
            discoverPool_reduce env tokenB tokenA chainId fee ts hch (Ne.symm hne),
            hcomm]
      · intro pool hp
        rw [discoverPool_reduce env tokenA tokenB chainId fee ts hch hne] at hp
        have hkey := discoverPoolSorted_pool_key env chainId _ _ fee ts pool hp
        have hspec := sortedCurrencies_spec hne
        rcases hspec.1 with hsc | hsc
        · refine ⟨Or.inl ⟨?_, ?_⟩, ?_⟩
          · rw [hkey.1, hsc]
          · rw [hkey.2, hsc]
          · rw [hkey.1, hkey.2]
            exact hspec.2
        · refine ⟨Or.inr ⟨?_, ?_⟩, ?_⟩
          · rw [hkey.1, hsc]
          · rw [hkey.2, hsc]
          · rw [hkey.1, hkey.2]
            exact hspec.2
  · have hch2 : env.chains chainId = false := by
      cases h : env.chains chainId
      · rfl
      · exact absurd h hch
    constructor
    · simp [discoverPool, hch2]
    · intro pool hp
      simp [discoverPool, hch2] at hp

/-- Concrete environment witnessing C5: one supported chain, constant
token metadata, and a pool-state read that reports an existing pool for
every key. -/
def envC5 : ChainEnv :=
  { chains := fun c => c == 1,
    positionManagerAddress := fun _ => "0x1111111111111111111111111111111111111111",
    tokenInfo := fun addr _ => .ok { address := addr, symbol := "TOK", decimals := 18 },
    readPool := fun _ _ => .ok ({ sqrtPriceX96 := 1, tick := 0 }, 0) }

/-- Pool object returned by `envC5` discovery on the pair
`("0xBB", "0xAA")`. -/
def poolC5 : PoolInfo :=
  { poolExists := true,
    poolId := some (poolIdOf
      { currency0 := "0xaa", currency1 := "0xbb", fee := 500,
        tickSpacing := 10, hooks := NATIVE_ETH_ADDRESS }),
    poolKey := { currency0 := "0xaa", currency1 := "0xbb", fee := 500,
                 tickSpacing := 10, hooks := NATIVE_ETH_ADDRESS },
    currentTick := 0, sqrtPriceX96 := 1, liquidity := 0,
    token0Symbol := "TOK", token1Symbol := "TOK",
    token0Decimals := 18, token1Decimals := 18 }

/-- Pool states returned by `fetchPoolState` always carry a positive
price (the zero sentinel yields `none`). -/
theorem fetchPoolState_pos (env : ChainEnv) (k : PoolKey) (chainId : Nat)
    (ps : PoolState) (h : fetchPoolState env k chainId = some ps) :
    0 < ps.sqrtPriceX96 := by
  unfold fetchPoolState at h
  split at h
  · simp at h
  · split at h
    · simp at h
    · rename_i hz
      simp only [Option.some.injEq] at h
      subst h
      exact Nat.pos_of_ne_zero hz

/-- Reduction of `discoverPool` to its sorted continuation for abstract
parameters. -/
theorem discoverPool_eq_sorted (env : ChainEnv) (params : V4PoolDiscoveryParams)
    (hch : env.chains params.chainId = true)
    (hne : toLowerCase params.token0 ≠ toLowerCase params.token1) :
    discoverPool env params = discoverPoolSorted env params.chainId
      (sortedCurrencies (toLowerCase params.token0) (toLowerCase params.token1)).1
      (sortedCurrencies (toLowerCase params.token0) (toLowerCase params.token1)).2
      params.fee params.tickSpacing := by
  simp [discoverPool, hch, hne]

/-- Witness for C5 at a concrete reversed-order call. -/
theorem discoverPool_canonical_order_witness :
    discoverPool envC5 ⟨"0xBB", "0xAA", 1, none, none⟩ =
      discoverPool envC5 ⟨"0xAA", "0xBB", 1, none, none⟩ ∧
    ((poolC5.poolKey.currency0 = toLowerCase "0xBB" ∧
      poolC5.poolKey.currency1 = toLowerCase "0xAA") ∨
     (poolC5.poolKey.currency0 = toLowerCase "0xAA" ∧
      poolC5.poolKey.currency1 = toLowerCase "0xBB")) ∧
    strLt poolC5.poolKey.currency0 poolC5.poolKey.currency1 = true := by
  have h := discoverPool_canonical_order envC5 "0xBB" "0xAA" 1 none none
  exact ⟨h.1, h.2 poolC5 (by decide)⟩

/-- C6: with neither fee nor tick spacing supplied, the fee tiers are
probed in the fixed order 500, 3000, 10000 and the first existing pool
wins — whenever the 500-tier pool exists the result is the 500-fee pool
(regardless of the other tiers, so in particular when the 3000-tier pool
also exists); the 3000 tier is consulted only when the 500 read yields no
pool, the 10000 tier only when both earlier reads yield no pool, and when
every tier yields no pool the result is the `exists:false` placeholder
with the 3000/60 defaults. -/
theorem discoverPool_fee_tier_order (env : ChainEnv)
    (params : V4PoolDiscoveryParams) (c0 c1 : String) (i0 i1 : TokenInfo)
    (hfee : params.fee = none) (hts : params.tickSpacing = none)
    (hch : env.chains params.chainId = true)
    (hne : toLowerCase params.token0 ≠ toLowerCase params.token1)
    (hc0 : c0 = (sortedCurrencies (toLowerCase params.token0)
      (toLowerCase params.token1)).1)
    (hc1 : c1 = (sortedCurrencies (toLowerCase params.token0)
      (toLowerCase params.token1)).2)
    (hti0 : getTokenInfo env c0 params.chainId = .ok i0)
    (hti1 : getTokenInfo env c1 params.chainId = .ok i1) :
    (∀ ps, fetchPoolState env ⟨c0, c1, 500, 10, NATIVE_ETH_ADDRESS⟩
        params.chainId = some ps →
      (discoverPool env params).pool = some
        { poolExists := true, poolId := some ps.poolId,
          poolKey := ⟨c0, c1, 500, 10, NATIVE_ETH_ADDRESS⟩,
          currentTick := ps.tick, sqrtPriceX96 := ps.sqrtPriceX96,
          liquidity := ps.liquidity, token0Symbol := i0.symbol,
          token1Symbol := i1.symbol, token0Decimals := i0.decimals,
          token1Decimals := i1.decimals }) ∧
    (fetchPoolState env ⟨c0, c1, 500, 10, NATIVE_ETH_ADDRESS⟩
        params.chainId = none →
     ∀ ps, fetchPoolState env ⟨c0, c1, 3000, 60, NATIVE_ETH_ADDRESS⟩
        params.chainId = some ps →
      (discoverPool env params).pool = some
        { poolExists := true, poolId := some ps.poolId,
          poolKey := ⟨c0, c1, 3000, 60, NATIVE_ETH_ADDRESS⟩,
          currentTick := ps.tick, sqrtPriceX96 := ps.sqrtPriceX96,
          liquidity := ps.liquidity, token0Symbol := i0.symbol,
          token1Symbol := i1.symbol, token0Decimals := i0.decimals,
          token1Decimals := i1.decimals }) ∧
    (fetchPoolState env ⟨c0, c1, 500, 10, NATIVE_ETH_ADDRESS⟩
        params.chainId = none →
     fetchPoolState env ⟨c0, c1, 3000, 60, NATIVE_ETH_ADDRESS⟩
        params.chainId = none →
     ∀ ps, fetchPoolState env ⟨c0, c1, 10000, 200, NATIVE_ETH_ADDRESS⟩
        params.chainId = some ps →
      (discoverPool env params).pool = some
        { poolExists := true, poolId := some ps.poolId,
          poolKey := ⟨c0, c1, 10000, 200, NATIVE_ETH_ADDRESS⟩,
          currentTick := ps.tick, sqrtPriceX96 := ps.sqrtPriceX96,
          liquidity := ps.liquidity, token0Symbol := i0.symbol,
          token1Symbol := i1.symbol, token0Decimals := i0.decimals,
          token1Decimals := i1.decimals }) ∧
    (fetchPoolState env ⟨c0, c1, 500, 10, NATIVE_ETH_ADDRESS⟩
        params.chainId = none →
     fetchPoolState env ⟨c0, c1, 3000, 60, NATIVE_ETH_ADDRESS⟩
        params.chainId = none →
     fetchPoolState env ⟨c0, c1, 10000, 200, NATIVE_ETH_ADDRESS⟩
        params.chainId = none →
      (discoverPool env params).pool = some
        { poolExists := false, poolId := none,
          poolKey := ⟨c0, c1, 3000, 60, NATIVE_ETH_ADDRESS⟩,
          currentTick := 0, sqrtPriceX96 := 0, liquidity := 0,
          token0Symbol := i0.symbol, token1Symbol := i1.symbol,
          token0Decimals := i0.decimals, token1Decimals := i1.decimals }) := by
  have hred := discoverPool_eq_sorted env params hch hne
  rw [← hc0, ← hc1, hfee, hts] at hred
  have hsorted : discoverPoolSorted env params.chainId c0 c1 none none =
      tryFeeTiers env params.chainId c0 c1 i0 i1 none none FEE_TIERS := by
    unfold discoverPoolSorted
    rw [hti0, hti1]
  rw [hsorted] at hred
  refine ⟨?_, ?_, ?_, ?_⟩
  · intro ps h500
    have hpos := fetchPoolState_pos env _ params.chainId ps h500
    rw [hred]
    simp only [FEE_TIERS, tryFeeTiers, h500]
    rw [if_pos hpos]
  · intro h500 ps h3000
    have hpos := fetchPoolState_pos env _ params.chainId ps h3000
    rw [hred]
    simp only [FEE_TIERS, tryFeeTiers, h500, h3000]
    rw [if_pos hpos]
  · intro h500 h3000 ps h10000
    have hpos := fetchPoolState_pos env _ params.chainId ps h10000
    rw [hred]
    simp only [FEE_TIERS, tryFeeTiers, h500, h3000, h10000]
    rw [if_pos hpos]
  · intro h500 h3000 h10000
    rw [hred]
    simp only [FEE_TIERS, tryFeeTiers, h500, h3000, h10000]

/-- Concrete environment witnessing C6: pools exist at both the 500 and
the 3000 fee tier, and at no other. -/
def envC6 : ChainEnv :=
  { chains := fun c => c == 1,
    positionManagerAddress := fun _ => "0x1111111111111111111111111111111111111111",
    tokenInfo := fun addr _ => .ok { address := addr, symbol := "TOK6", decimals := 18 },
    readPool := fun k _ =>
      if k.fee == 500 || k.fee == 3000 then
        .ok ({ sqrtPriceX96 := 1, tick := 0 }, 0)
      else
        .ok ({ sqrtPriceX96 := 0, tick := 0 }, 0) }

/-- Witness for C6: with pools at both 500 and 3000, discovery returns
the 500-fee pool. -/
theorem discoverPool_fee_tier_order_witness :
    (discoverPool envC6 ⟨"0xaa", "0xbb", 1, none, none⟩).pool = some
      { poolExists := true,
        poolId := some (poolIdOf ⟨"0xaa", "0xbb", 500, 10, NATIVE_ETH_ADDRESS⟩),
        poolKey := ⟨"0xaa", "0xbb", 500, 10, NATIVE_ETH_ADDRESS⟩,
        currentTick := 0, sqrtPriceX96 := 1, liquidity := 0,
        token0Symbol := "TOK6", token1Symbol := "TOK6",
        token0Decimals := 18, token1Decimals := 18 } := by
  have h := discoverPool_fee_tier_order envC6 ⟨"0xaa", "0xbb", 1, none, none⟩
    "0xaa" "0xbb" ⟨"0xaa", "TOK6", 18⟩ ⟨"0xbb", "TOK6", 18⟩ rfl rfl (by decide)
    (by decide) (by decide) (by decide) rfl rfl
  exact h.1 { poolId := poolIdOf ⟨"0xaa", "0xbb", 500, 10, NATIVE_ETH_ADDRESS⟩,
              sqrtPriceX96 := 1, tick := 0, liquidity := 0 } (by decide)

/-- Concrete environment refuting C2: the pool-state read fails on the
500 tier and succeeds on the 3000 tier. -/
def envC2 : ChainEnv :=
  { chains := fun c => c == 1,
    positionManagerAddress := fun _ => "0x1111111111111111111111111111111111111111",
    tokenInfo := fun addr _ => .ok { address := addr, symbol := "TOK2", decimals := 18 },
    readPool := fun k _ =>
      if k.fee == 500 then .error "network failure"
      else if k.fee == 3000 then .ok ({ sqrtPriceX96 := 1, tick := 0 }, 0)
      else .ok ({ sqrtPriceX96 := 0, tick := 0 }, 0) }

/-- Discovery parameters used with `envC2`. -/
def paramsC2 : V4PoolDiscoveryParams := ⟨"0xaa", "0xbb", 1, none, none⟩

/-- Counterexample to C2: a read failure on the 500 tier does not
propagate out of discovery — discovery falls through to the 3000 tier and
returns that pool as a success, with no error. -/
theorem discoverPool_error_falls_through_cex :
    envC2.readPool ⟨"0xaa", "0xbb", 500, 10, NATIVE_ETH_ADDRESS⟩ 1 =
      .error "network failure" ∧
    (discoverPool envC2 paramsC2).success = true ∧
    (discoverPool envC2 paramsC2).error = none ∧
    (discoverPool envC2 paramsC2).pool = some
      { poolExists := true,
        poolId := some (poolIdOf ⟨"0xaa", "0xbb", 3000, 60, NATIVE_ETH_ADDRESS⟩),
        poolKey := ⟨"0xaa", "0xbb", 3000, 60, NATIVE_ETH_ADDRESS⟩,
        currentTick := 0, sqrtPriceX96 := 1, liquidity := 0,
        token0Symbol := "TOK2", token1Symbol := "TOK2",
        token0Decimals := 18, token1Decimals := 18 } :=
  ⟨rfl, by decide, by decide, by decide⟩

/-- C2 amended: a pool-state read failure is caught inside
`fetchPoolState` and converted to `none`, indistinguishable from the
zero-price does-not-exist sentinel; on the no-fee discovery path such a
failure therefore never surfaces as a discovery error — discovery always
returns a success result (falling through to later tiers or to the
`exists:false` placeholder). -/
theorem fetchPoolState_error_swallowed (env : ChainEnv) (key : PoolKey)
    (chainId : Nat) (e : String) (params : V4PoolDiscoveryParams)
    (c0 c1 : String) (i0 i1 : TokenInfo)
    (herr : env.readPool key chainId = .error e)
    (hfee : params.fee = none) (hts : params.tickSpacing = none)
    (hch : env.chains params.chainId = true)
    (hne : toLowerCase params.token0 ≠ toLowerCase params.token1)
    (hc0 : c0 = (sortedCurrencies (toLowerCase params.token0)
      (toLowerCase params.token1)).1)
    (hc1 : c1 = (sortedCurrencies (toLowerCase params.token0)
      (toLowerCase params.token1)).2)
    (hti0 : getTokenInfo env c0 params.chainId = .ok i0)
    (hti1 : getTokenInfo env c1 params.chainId = .ok i1) :
    fetchPoolState env key chainId = none ∧
    (discoverPool env params).success = true := by
  constructor
  · unfold fetchPoolState
    rw [herr]
  · have hred := discoverPool_eq_sorted env params hch hne
    rw [← hc0, ← hc1, hfee, hts] at hred
    have hsorted : discoverPoolSorted env params.chainId c0 c1 none none =
        tryFeeTiers env params.chainId c0 c1 i0 i1 none none FEE_TIERS := by
      unfold discoverPoolSorted
      rw [hti0, hti1]
    rw [hred, hsorted]
    exact tryFeeTiers_success env params.chainId c0 c1 i0 i1 none none FEE_TIERS

/-- Witness for the amended C2 at the concrete failing environment. -/
theorem fetchPoolState_error_swallowed_witness :
    fetchPoolState envC2 ⟨"0xaa", "0xbb", 500, 10, NATIVE_ETH_ADDRESS⟩ 1 = none ∧
    (discoverPool envC2 paramsC2).success = true :=
  fetchPoolState_error_swallowed envC2 ⟨"0xaa", "0xbb", 500, 10, NATIVE_ETH_ADDRESS⟩
    1 "network failure" paramsC2 "0xaa" "0xbb" ⟨"0xaa", "TOK2", 18⟩
    ⟨"0xbb", "TOK2", 18⟩ rfl rfl rfl rfl (by decide) (by decide) (by decide)
    rfl rfl

/-- Concrete environment refuting C8: every token-metadata read fails
with a network error. -/
def envC8 : ChainEnv :=
  { chains := fun c => c == 1,
    positionManagerAddress := fun _ => "0x1111111111111111111111111111111111111111",
    tokenInfo := fun _ _ => .error "network down",
    readPool := fun _ _ => .ok ({ sqrtPriceX96 := 1, tick := 0 }, 0) }

/-- Discovery parameters with `tickSpacing` but no `fee`, used with
`envC8`. -/
def paramsC8 : V4PoolDiscoveryParams := ⟨"0xaa", "0xbb", 1, none, some 60⟩

/-- Counterexample to C8: with `tickSpacing` supplied and no `fee`, the
call does not always fail with the ambiguous-parameters validation error
— the token-metadata network reads run first, and their failure is what
the caller sees. -/
theorem discoverPool_ambiguous_after_network_cex :
    (discoverPool envC8 paramsC8).success = false ∧
    (discoverPool envC8 paramsC8).error = some "network down" ∧
    (discoverPool envC8 paramsC8).error ≠
      some "tickSpacing cannot be specified without fee. Please provide both or neither." :=
  ⟨by decide, by decide, by decide⟩

/-- C8 amended: with `tickSpacing` supplied and no `fee`, the call is
rejected with the ambiguous-parameters validation error provided the
chain is supported, the normalized tokens differ and both token-metadata
reads succeed — and the rejection precedes every pool-state probe (the
result does not depend on the pool-read oracle); a failing
token-metadata read preempts the rejection with its own error. -/
theorem discoverPool_ambiguous_rejected (env : ChainEnv)
    (params : V4PoolDiscoveryParams) (ts : Int) (c0 c1 : String)
    (i0 i1 : TokenInfo)
    (hfee : params.fee = none) (hts : params.tickSpacing = some ts)
    (hch : env.chains params.chainId = true)
    (hne : toLowerCase params.token0 ≠ toLowerCase params.token1)
    (hc0 : c0 = (sortedCurrencies (toLowerCase params.token0)
      (toLowerCase params.token1)).1)
    (hc1 : c1 = (sortedCurrencies (toLowerCase params.token0)
      (toLowerCase params.token1)).2)
    (hti0 : getTokenInfo env c0 params.chainId = .ok i0)
    (hti1 : getTokenInfo env c1 params.chainId = .ok i1) :
    discoverPool env params =
      { success := false,
        error := some "tickSpacing cannot be specified without fee. Please provide both or neither." } ∧
    ∀ rp : PoolKey → Nat → Except String (Slot0 × Nat),
      discoverPool { env with readPool := rp } params = discoverPool env params := by
  have aux : ∀ env2 : ChainEnv, env2.chains params.chainId = true →
      getTokenInfo env2 c0 params.chainId = .ok i0 →
      getTokenInfo env2 c1 params.chainId = .ok i1 →
      discoverPool env2 params =
        { success := false,
          error := some "tickSpacing cannot be specified without fee. Please provide both or neither." } := by
    intro env2 h1 h2 h3
    have hred := discoverPool_eq_sorted env2 params h1 hne
    rw [← hc0, ← hc1, hfee, hts] at hred
    rw [hred]
    unfold discoverPoolSorted
    rw [h2, h3]
  have hmain := aux env hch hti0 hti1
  refine ⟨hmain, ?_⟩
  intro rp
  rw [hmain]
  exact aux { env with readPool := rp } hch hti0 hti1

/-- Concrete environment for the amended C8 witness: token metadata
resolves, and the pool-read oracle is irrelevant. -/
def envC8w : ChainEnv :=
  { chains := fun c => c == 1,
    positionManagerAddress := fun _ => "0x1111111111111111111111111111111111111111",
    tokenInfo := fun addr _ => .ok { address := addr, symbol := "TOK8", decimals := 18 },
    readPool := fun _ _ => .error "must never be consulted" }

/-- Witness for the amended C8: a `tickSpacing`-only call on a healthy
environment fails with exactly the ambiguous-parameters error. -/
theorem discoverPool_ambiguous_rejected_witness :
    discoverPool envC8w ⟨"0xaa", "0xbb", 1, none, some 60⟩ =
      { success := false,
        error := some "tickSpacing cannot be specified without fee. Please provide both or neither." } :=
  (discoverPool_ambiguous_rejected envC8w ⟨"0xaa", "0xbb", 1, none, some 60⟩ 60
    "0xaa" "0xbb" ⟨"0xaa", "TOK8", 18⟩ ⟨"0xbb", "TOK8", 18⟩ rfl rfl rfl
    (by decide) (by decide) (by decide) rfl rfl).1

/-! Helper lemmas on the full-range tick computation. -/

/-- Value of the JavaScript rounding at the upper global bound. -/
theorem jsRound_max (s q r : Int) (hs : 0 < s) (heq : 887272 = q * s + r)
    (h0 : 0 ≤ r) (h1 : r < s) :
    jsRound 887272 s = if 2 * r < s then q else q + 1 := by
  have h2s : (0 : Int) < 2 * s := by omega
  unfold jsRound
  rw [Int.fdiv_eq_ediv _ h2s.le]
  have hnum : 2 * 887272 + s = (2 * r + s) + q * (2 * s) := by
    rw [heq]
    ring
  rw [hnum, Int.add_mul_ediv_right _ _ h2s.ne']
  by_cases hc : 2 * r < s
  · rw [if_pos hc, Int.ediv_eq_zero_of_lt (by omega) (by omega), zero_add]
  · rw [if_neg hc]
    have h2 : 2 * r + s = (2 * r - s) + 1 * (2 * s) := by ring
    rw [h2, Int.add_mul_ediv_right _ _ h2s.ne',
        Int.ediv_eq_zero_of_lt (by omega) (by omega)]
    omega

/-- Value of the JavaScript rounding at the lower global bound (the
half-up rounding of `Math.round` makes the split condition differ from
the upper bound by one). -/
theorem jsRound_min (s q r : Int) (hs : 0 < s) (heq : 887272 = q * s + r)
    (h0 : 0 ≤ r) (h1 : r < s) :
    jsRound (-887272) s = if 2 * r ≤ s then -q else -q - 1 := by
  have h2s : (0 : Int) < 2 * s := by omega
  unfold jsRound
  rw [Int.fdiv_eq_ediv _ h2s.le]
  have hnum : 2 * (-887272) + s = (s - 2 * r) + (-q) * (2 * s) := by
    rw [heq]
    ring
  rw [hnum, Int.add_mul_ediv_right _ _ h2s.ne']
  by_cases hc : 2 * r ≤ s
  · rw [if_pos hc, Int.ediv_eq_zero_of_lt (by omega) (by omega), zero_add]
  · rw [if_neg hc]
    have h2 : s - 2 * r = (3 * s - 2 * r) + (-1) * (2 * s) := by ring
    rw [h2, Int.add_mul_ediv_right _ _ h2s.ne',
        Int.ediv_eq_zero_of_lt (by omega) (by omega)]
    omega

/-- At the upper global bound, `nearestUsableTick` is the greatest
multiple of the spacing not exceeding the bound. -/
theorem nearestUsableTick_max_eq (s q r : Int) (hs : 0 < s)
    (heq : 887272 = q * s + r) (h0 : 0 ≤ r) (h1 : r < s) :
    nearestUsableTick MAX_TICK s = q * s := by
  have hq : 0 ≤ q := by
    by_contra hneg
    push_neg at hneg
    have hq1 : q ≤ -1 := by omega
    have : q * s ≤ (-1) * s := mul_le_mul_of_nonneg_right hq1 hs.le
    linarith
  have hqs : q * s = 887272 - r := by linarith
  have hqpos : 0 ≤ q * s := mul_nonneg hq hs.le
  simp only [nearestUsableTick, MAX_TICK, MIN_TICK]
  rw [jsRound_max s q r hs heq h0 h1]
  by_cases hc : 2 * r < s
  · rw [if_pos hc, if_neg (by linarith), if_neg (by simp only [gt_iff_lt]; linarith)]
  · rw [if_neg hc]
    have hexp : (q + 1) * s = q * s + s := by ring
    rw [hexp, if_neg (by linarith), if_pos (by simp only [gt_iff_lt]; linarith)]
    linarith

/-- At the lower global bound, `nearestUsableTick` is the least multiple
of the spacing not below the bound: the negation of the upper value. -/
theorem nearestUsableTick_min_eq (s q r : Int) (hs : 0 < s)
    (heq : 887272 = q * s + r) (h0 : 0 ≤ r) (h1 : r < s) :
    nearestUsableTick MIN_TICK s = -(q * s) := by
  have hq : 0 ≤ q := by
    by_contra hneg
    push_neg at hneg
    have hq1 : q ≤ -1 := by omega
    have : q * s ≤ (-1) * s := mul_le_mul_of_nonneg_right hq1 hs.le
    linarith
  have hqs : q * s = 887272 - r := by linarith
  have hqpos : 0 ≤ q * s := mul_nonneg hq hs.le
  simp only [nearestUsableTick, MAX_TICK, MIN_TICK]
  rw [jsRound_min s q r hs heq h0 h1]
  by_cases hc : 2 * r ≤ s
  · rw [if_pos hc]
    have hexp : -q * s = -(q * s) := by ring
    rw [hexp, if_neg (by linarith), if_neg (by simp only [gt_iff_lt]; linarith)]
  · rw [if_neg hc]
    have hexp : (-q - 1) * s = -(q * s) - s := by ring
    rw [hexp, if_pos (by linarith)]
    ring

/-- Closed form of `calculateFullRangeTicks` for a positive spacing: the
symmetric pair built from the greatest multiple of the spacing not
exceeding the global bound. -/
theorem calculateFullRangeTicks_eq (s : Int) (hs : 1 ≤ s) :
    calculateFullRangeTicks s =
      { tickLower := -(887272 / s * s), tickUpper := 887272 / s * s } := by
  have hs0 : (0 : Int) < s := hs
  have hdm := Int.ediv_add_emod 887272 s
  rw [mul_comm s (887272 / s)] at hdm
  have heq : (887272 : Int) = 887272 / s * s + 887272 % s := hdm.symm
  have h0 := Int.emod_nonneg 887272 hs0.ne'
  have h1 := Int.emod_lt_of_pos 887272 hs0
  unfold calculateFullRangeTicks
  rw [nearestUsableTick_max_eq s (887272 / s) (887272 % s) hs0 heq h0 h1,
      nearestUsableTick_min_eq s (887272 / s) (887272 % s) hs0 heq h0 h1]

/-- Counterexample to C7: at the positive tick spacing 1000000 the
computed full-range ticks are both 0, so `tickLower < 0 < tickUpper`
fails. -/
theorem calculateFullRangeTicks_cex :
    calculateFullRangeTicks 1000000 = { tickLower := 0, tickUpper := 0 } ∧
    ¬((calculateFullRangeTicks 1000000).tickLower < 0 ∧
      0 < (calculateFullRangeTicks 1000000).tickUpper) :=
  ⟨by decide, by decide⟩

/-- C7 amended: for every tick spacing `s` with `1 ≤ s ≤ 887272` (the
global tick bound; larger spacings collapse both bounds to 0), the
full-range ticks are multiples of `s`, lie within the global bounds with
`tickLower < 0 < tickUpper`, and each bound is the multiple of `s`
nearest to the respective global bound on the inside of the valid range:
no multiple of `s` within the bounds lies beyond it. -/
theorem calculateFullRangeTicks_spec (s : Int) (hs : 1 ≤ s) (hb : s ≤ 887272) :
    s ∣ (calculateFullRangeTicks s).tickLower ∧
    s ∣ (calculateFullRangeTicks s).tickUpper ∧
    -887272 ≤ (calculateFullRangeTicks s).tickLower ∧
    (calculateFullRangeTicks s).tickLower < 0 ∧
    0 < (calculateFullRangeTicks s).tickUpper ∧
    (calculateFullRangeTicks s).tickUpper ≤ 887272 ∧
    (∀ m : Int, s ∣ m → m ≤ 887272 → m ≤ (calculateFullRangeTicks s).tickUpper) ∧
    (∀ m : Int, s ∣ m → -887272 ≤ m → (calculateFullRangeTicks s).tickLower ≤ m) ∧
    (calculateFullRangeTicks s).tickLower = -(calculateFullRangeTicks s).tickUpper := by
  have hs0 : (0 : Int) < s := hs
  have hdm := Int.ediv_add_emod 887272 s
  have h0 := Int.emod_nonneg 887272 hs0.ne'
  have h1 := Int.emod_lt_of_pos 887272 hs0
  have hq1 : 1 ≤ 887272 / s := (Int.le_ediv_iff_mul_le hs0).mpr (by omega)
  have hqu : 887272 / s * s ≤ 887272 := by linarith
  have hpos : 0 < 887272 / s * s := by
    have := mul_le_mul_of_nonneg_right hq1 hs0.le
    linarith
  rw [calculateFullRangeTicks_eq s hs]
  dsimp only
  refine ⟨dvd_neg.mpr (dvd_mul_left s (887272 / s)), dvd_mul_left s (887272 / s),
    by linarith, by linarith, hpos, hqu, ?_, ?_, rfl⟩
  · intro m hdvd hm
    obtain ⟨k, hk⟩ := hdvd
    have hks : k ≤ 887272 / s := (Int.le_ediv_iff_mul_le hs0).mpr (by
      rw [hk] at hm
      linarith)
    have := mul_le_mul_of_nonneg_left hks hs0.le
    rw [hk]
    linarith
  · intro m hdvd hm
    obtain ⟨k, hk⟩ := hdvd
    have hks : -k ≤ 887272 / s := (Int.le_ediv_iff_mul_le hs0).mpr (by
      rw [hk] at hm
      linarith)
    have := mul_le_mul_of_nonneg_left hks hs0.le
    rw [hk]
    linarith

/-- Witness for the amended C7 at the concrete spacing 10. -/
theorem calculateFullRangeTicks_spec_witness :
    (10 : Int) ∣ (calculateFullRangeTicks 10).tickUpper ∧
    (calculateFullRangeTicks 10).tickLower < 0 ∧
    0 < (calculateFullRangeTicks 10).tickUpper ∧
    (calculateFullRangeTicks 10).tickUpper ≤ 887272 := by
  have h := calculateFullRangeTicks_spec 10 (by decide) (by decide)
  exact ⟨h.2.1, h.2.2.2.1, h.2.2.2.2.1, h.2.2.2.2.2.1⟩

/-! Helper lemmas on position minting. -/

/-- A preflight failure is exactly the failure result of `mintPosition`. -/
theorem mintPosition_error (env : MintEnv) (u : String)
    (params : V4MintSimpleParams) (e : MintError)
    (h : mintPreflight env u params = .error e) :
    mintPosition env u params = { success := false, error := some e } := by
  unfold mintPosition
  rw [h]

/-- C3: the desired amounts are re-mapped to the pool's canonical
currency order before liquidity derivation — when the caller's lowercased
`token0` is not the discovered pool's `currency0` the amounts swap places
(the amount paired with `currency0` is the caller's `amount1Desired`),
and otherwise they pass through unswapped; the assembly input carries
exactly these re-mapped amounts. -/
theorem mint_amounts_canonical (env : MintEnv) (u : String)
    (params : V4MintSimpleParams) (res : V4PoolDiscoveryResult)
    (pool : PoolInfo) (pre : MintPreflight)
    (hdisc : discoverPool env.toChainEnv
      ⟨toLowerCase params.token0, toLowerCase params.token1, params.chainId,
        none, none⟩ = res)
    (hpool : res.pool = some pool)
    (hok : mintPreflight env u params = .ok pre) :
    pre.pool = pool ∧
    (toLowerCase params.token0 ≠ toLowerCase pool.poolKey.currency0 →
      pre.amount0Wei = params.amount1Desired ∧
      pre.amount1Wei = params.amount0Desired) ∧
    (toLowerCase params.token0 = toLowerCase pool.poolKey.currency0 →
      pre.amount0Wei = params.amount0Desired ∧
      pre.amount1Wei = params.amount1Desired) ∧
    (mintAssemblyInput pre).amount0 = pre.amount0Wei ∧
    (mintAssemblyInput pre).amount1 = pre.amount1Wei := by
  unfold mintPreflight mintChecks at hok
  split at hok
  · exact Except.noConfusion hok
  · split at hok
    · exact Except.noConfusion hok
    · rename_i session hsess
      dsimp only at hok
      rw [hdisc] at hok
      split at hok
      · exact Except.noConfusion hok
      · rename_i p heq
        rw [hpool] at heq
        injection heq with heq2
        subst heq2
        split at hok
        · exact Except.noConfusion hok
        · split at hok
          · exact Except.noConfusion hok
          · split at hok
            · exact Except.noConfusion hok
            · split at hok
              · exact Except.noConfusion hok
              · split at hok
                · exact Except.noConfusion hok
                · split at hok
                  · exact Except.noConfusion hok
                  · split at hok
                    · exact Except.noConfusion hok
                    · split at hok
                      · exact Except.noConfusion hok
                      · injection hok with hok2
                        subst hok2
                        refine ⟨rfl, ?_, ?_, rfl, rfl⟩
                        · intro hne
                          simp [amountsForPool, hne]
                        · intro heqc
                          simp [amountsForPool, heqc]

/-- Concrete mint environment witnessing C3: the caller passes the pair
in reverse canonical order and the mint succeeds. -/
def envC3 : MintEnv :=
  { chains := fun c => c == 1,
    positionManagerAddress := fun _ => "0x1111111111111111111111111111111111111111",
    tokenInfo := fun addr _ => .ok { address := addr, symbol := "T3", decimals := 18 },
    readPool := fun k _ =>
      if k.fee == 500 then .ok ({ sqrtPriceX96 := 1, tick := 0 }, 0)
      else .ok ({ sqrtPriceX96 := 0, tick := 0 }, 0),
    getSession := fun _ =>
      some
        { userId := "u3", walletId := "w3",
          walletAddress := "0x3333333333333333333333333333333333333333" },
    getBalance := fun _ _ _ => .ok 1000000,
    getAllowance := fun _ _ _ _ => .ok 1000000,
    assemble := fun _ =>
      { liquidity := 7, amount0 := 0, amount1 := 0, calldata := "0xdata", value := 0 },
    transact := fun _ _ => { success := true, hash := some "0xhash3" } }

/-- Mint parameters used with `envC3`: tokens in reverse canonical
order. -/
def paramsC3 : V4MintSimpleParams :=
  { token0 := "0xbb", token1 := "0xaa", amount0Desired := 100,
    amount1Desired := 200, chainId := 1 }

/-- Pool discovered by `envC3` for `paramsC3`. -/
def poolC3 : PoolInfo :=
  { poolExists := true,
    poolId := some (poolIdOf ⟨"0xaa", "0xbb", 500, 10, NATIVE_ETH_ADDRESS⟩),
    poolKey := ⟨"0xaa", "0xbb", 500, 10, NATIVE_ETH_ADDRESS⟩,
    currentTick := 0, sqrtPriceX96 := 1, liquidity := 0,
    token0Symbol := "T3", token1Symbol := "T3",
    token0Decimals := 18, token1Decimals := 18 }

/-- Discovery result of `envC3` for `paramsC3`. -/
def resC3 : V4PoolDiscoveryResult :=
  { success := true, pool := some poolC3, error := none }

/-- Preflight result of `envC3` for `paramsC3`: the desired amounts have
swapped places. -/
def preC3 : MintPreflight :=
  { session :=
      { userId := "u3", walletId := "w3",
        walletAddress := "0x3333333333333333333333333333333333333333" },
    pool := poolC3, amount0Wei := 200, amount1Wei := 100,
    tickLower := -887270, tickUpper := 887270 }

/-- Witness for C3: with the caller order reversed, the amount paired
with `currency0` is the caller's `amount1Desired`. -/
theorem mint_amounts_canonical_witness :
    preC3.amount0Wei = 200 ∧ preC3.amount1Wei = 100 := by
  have h := mint_amounts_canonical envC3 "u3" paramsC3 resC3 poolC3 preC3
    rfl rfl rfl
  exact h.2.1 (by decide)

/-- Reduction of the mint preflight to its check stage once the chain is
supported, a session exists, and discovery returns an existing pool. -/
theorem mintPreflight_reduce (env : MintEnv) (u : String)
    (params : V4MintSimpleParams) (session : Session)
    (res : V4PoolDiscoveryResult) (pool : PoolInfo)
    (hch : env.chains params.chainId = true)
    (hsess : env.getSession u = some session)
    (hdisc : discoverPool env.toChainEnv
      ⟨toLowerCase params.token0, toLowerCase params.token1, params.chainId,
        none, none⟩ = res)
    (hsucc : res.success = true) (hpool : res.pool = some pool)
    (hex : pool.poolExists = true) :
    mintPreflight env u params =
      mintChecks env session pool params.chainId
        (amountsForPool params.token0 pool.poolKey.currency0
          params.amount0Desired params.amount1Desired).1
        (amountsForPool params.token0 pool.poolKey.currency0
          params.amount0Desired params.amount1Desired).2 := by
  unfold mintPreflight
  rw [hch, if_neg (by simp), hsess]
  dsimp only
  rw [hdisc, hpool]
  dsimp only
  rw [hsucc, hex, if_neg (by simp), if_neg (by simp)]

/-- C10: both token legs' balances are checked before any allowance — the
result of an insufficient-balance run does not depend on the allowance
oracle at all — and the surfaced error names exactly the first
insufficient leg in canonical order: a `currency0` shortfall is reported
(with `currency0`'s symbol) whatever `currency1`'s balance is, and a
`currency1` shortfall is reported only when `currency0`'s balance
suffices. -/
theorem mint_balance_before_allowance (env : MintEnv) (u : String)
    (params : V4MintSimpleParams) (session : Session)
    (res : V4PoolDiscoveryResult) (pool : PoolInfo) (b0 b1 : Nat)
    (hch : env.chains params.chainId = true)
    (hsess : env.getSession u = some session)
    (hdisc : discoverPool env.toChainEnv
      ⟨toLowerCase params.token0, toLowerCase params.token1, params.chainId,
        none, none⟩ = res)
    (hsucc : res.success = true) (hpool : res.pool = some pool)
    (hex : pool.poolExists = true)
    (hb0 : env.getBalance session.walletAddress pool.poolKey.currency0
      params.chainId = .ok b0)
    (hb1 : env.getBalance session.walletAddress pool.poolKey.currency1
      params.chainId = .ok b1) :
    (b0 < (amountsForPool params.token0 pool.poolKey.currency0
        params.amount0Desired params.amount1Desired).1 →
      ∀ g, mintPosition { env with getAllowance := g } u params =
        { success := false,
          error := some (.insufficientBalance pool.token0Symbol
            pool.token0Decimals
            (amountsForPool params.token0 pool.poolKey.currency0
              params.amount0Desired params.amount1Desired).1 b0) }) ∧
    ((amountsForPool params.token0 pool.poolKey.currency0
        params.amount0Desired params.amount1Desired).1 ≤ b0 →
     b1 < (amountsForPool params.token0 pool.poolKey.currency0
        params.amount0Desired params.amount1Desired).2 →
      ∀ g, mintPosition { env with getAllowance := g } u params =
        { success := false,
          error := some (.insufficientBalance pool.token1Symbol
            pool.token1Decimals
            (amountsForPool params.token0 pool.poolKey.currency0
              params.amount0Desired params.amount1Desired).2 b1) }) := by
  constructor
  · intro hlt g
    apply mintPosition_error
    rw [mintPreflight_reduce { env with getAllowance := g } u params session
      res pool hch hsess hdisc hsucc hpool hex]
    unfold mintChecks checkBalance
    dsimp only
    rw [hb0, hb1]
    dsimp only
    rw [decide_eq_false (by omega), if_pos rfl]
  · intro hle hlt g
    apply mintPosition_error
    rw [mintPreflight_reduce { env with getAllowance := g } u params session
      res pool hch hsess hdisc hsucc hpool hex]
    unfold mintChecks checkBalance
    dsimp only
    rw [hb0, hb1]
    dsimp only
    rw [decide_eq_true hle, decide_eq_false (by omega),
        if_neg (by simp), if_pos rfl]

/-- Concrete mint environment witnessing C10: both token balances are
zero. -/
def envC10 : MintEnv :=
  { chains := fun c => c == 1,
    positionManagerAddress := fun _ => "0x1111111111111111111111111111111111111111",
    tokenInfo := fun addr _ => .ok { address := addr, symbol := "TA", decimals := 18 },
    readPool := fun k _ =>
      if k.fee == 500 then .ok ({ sqrtPriceX96 := 1, tick := 0 }, 0)
      else .ok ({ sqrtPriceX96 := 0, tick := 0 }, 0),
    getSession := fun _ =>
      some
        { userId := "u10", walletId := "w10",
          walletAddress := "0x1010101010101010101010101010101010101010" },
    getBalance := fun _ _ _ => .ok 0,
    getAllowance := fun _ _ _ _ => .ok 0,
    assemble := fun _ =>
      { liquidity := 7, amount0 := 0, amount1 := 0, calldata := "0xdata", value := 0 },
    transact := fun _ _ => { success := true, hash := some "0xhash10" } }

/-- Mint parameters used with `envC10`. -/
def paramsC10 : V4MintSimpleParams :=
  { token0 := "0xaa", token1 := "0xbb", amount0Desired := 100,
    amount1Desired := 200, chainId := 1 }

/-- Pool discovered by `envC10` for `paramsC10`. -/
def poolC10 : PoolInfo :=
  { poolExists := true,
    poolId := some (poolIdOf ⟨"0xaa", "0xbb", 500, 10, NATIVE_ETH_ADDRESS⟩),
    poolKey := ⟨"0xaa", "0xbb", 500, 10, NATIVE_ETH_ADDRESS⟩,
    currentTick := 0, sqrtPriceX96 := 1, liquidity := 0,
    token0Symbol := "TA", token1Symbol := "TA",
    token0Decimals := 18, token1Decimals := 18 }

/-- Discovery result of `envC10` for `paramsC10`. -/
def resC10 : V4PoolDiscoveryResult :=
  { success := true, pool := some poolC10, error := none }

/-- Witness for C10: with both balances at zero, the error names the
canonical token0 leg. -/
theorem mint_balance_before_allowance_witness :
    mintPosition envC10 "u10" paramsC10 =
      { success := false,
        error := some (.insufficientBalance "TA" 18 100 0) } := by
  have h := mint_balance_before_allowance envC10 "u10" paramsC10
    { userId := "u10", walletId := "w10",
      walletAddress := "0x1010101010101010101010101010101010101010" }
    resC10 poolC10 0 0 rfl rfl rfl rfl rfl rfl rfl rfl
  exact h.1 (by decide) envC10.getAllowance

/-- A passing allowance gate means the token was native, or its fetched
allowance covered the desired amount for that leg. -/
theorem allowanceGate_ok_inversion (env : MintEnv) (w t sym sp : String)
    (amt : Nat) (ch : Nat)
    (h : allowanceGate env w t sym sp amt ch = .ok ()) :
    t = NATIVE_ETH_ADDRESS ∨
    (t ≠ NATIVE_ETH_ADDRESS ∧
      ∃ a, env.getAllowance w t sp ch = .ok a ∧ ¬(a < amt)) := by
  by_cases hn : t = NATIVE_ETH_ADDRESS
  · exact Or.inl hn
  · right
    refine ⟨hn, ?_⟩
    unfold allowanceGate checkAllowance at h
    rw [if_neg hn, if_neg hn] at h
    cases hga : env.getAllowance w t sp ch with
    | error e =>
      rw [hga] at h
      dsimp only at h
      exact Except.noConfusion h
    | ok a =>
      rw [hga] at h
      dsimp only at h
      by_cases hlt : a < amt
      · rw [if_pos hlt] at h
        exact Except.noConfusion h
      · exact ⟨a, rfl, hlt⟩

/-- C1 amended: the allowance of each ERC-20 token leg is compared
against the canonical-order desired amount of that leg, before and
independently of position assembly — an insufficient `currency0`
allowance fails with `currency0`'s `not approved` error, and once the
`currency0` gate passes, an insufficient `currency1` allowance fails
with `currency1`'s error; in both cases the result is the same for
every assembly oracle, so the SDK-derived post-assembly amounts are
never consulted by either gate. -/
theorem mint_allowance_checked_against_desired (env : MintEnv) (u : String)
    (params : V4MintSimpleParams) (session : Session)
    (res : V4PoolDiscoveryResult) (pool : PoolInfo) (b0 b1 : Nat)
    (hch : env.chains params.chainId = true)
    (hsess : env.getSession u = some session)
    (hdisc : discoverPool env.toChainEnv
      ⟨toLowerCase params.token0, toLowerCase params.token1, params.chainId,
        none, none⟩ = res)
    (hsucc : res.success = true) (hpool : res.pool = some pool)
    (hex : pool.poolExists = true)
    (hb0 : env.getBalance session.walletAddress pool.poolKey.currency0
      params.chainId = .ok b0)
    (hb1 : env.getBalance session.walletAddress pool.poolKey.currency1
      params.chainId = .ok b1)
    (hs0 : (amountsForPool params.token0 pool.poolKey.currency0
      params.amount0Desired params.amount1Desired).1 ≤ b0)
    (hs1 : (amountsForPool params.token0 pool.poolKey.currency0
      params.amount0Desired params.amount1Desired).2 ≤ b1) :
    (∀ a0, pool.poolKey.currency0 ≠ NATIVE_ETH_ADDRESS →
      env.getAllowance session.walletAddress pool.poolKey.currency0
        (env.positionManagerAddress params.chainId) params.chainId = .ok a0 →
      a0 < (amountsForPool params.token0 pool.poolKey.currency0
        params.amount0Desired params.amount1Desired).1 →
      ∀ f : AssemblyInput → AssemblyOutput,
        mintPosition { env with assemble := f } u params =
          { success := false,
            error := some (.notApproved pool.token0Symbol
              pool.poolKey.currency0) }) ∧
    (∀ a1, allowanceGate env session.walletAddress pool.poolKey.currency0
        pool.token0Symbol (env.positionManagerAddress params.chainId)
        (amountsForPool params.token0 pool.poolKey.currency0
          params.amount0Desired params.amount1Desired).1 params.chainId = .ok () →
      pool.poolKey.currency1 ≠ NATIVE_ETH_ADDRESS →
      env.getAllowance session.walletAddress pool.poolKey.currency1
        (env.positionManagerAddress params.chainId) params.chainId = .ok a1 →
      a1 < (amountsForPool params.token0 pool.poolKey.currency0
        params.amount0Desired params.amount1Desired).2 →
      ∀ f : AssemblyInput → AssemblyOutput,
        mintPosition { env with assemble := f } u params =
          { success := false,
            error := some (.notApproved pool.token1Symbol
              pool.poolKey.currency1) }) := by
  constructor
  · intro a0 hnn ha0 hlt f
    apply mintPosition_error
    rw [mintPreflight_reduce { env with assemble := f } u params session
      res pool hch hsess hdisc hsucc hpool hex]
    unfold mintChecks checkBalance allowanceGate checkAllowance
    dsimp only
    rw [hb0, hb1]
    dsimp only
    rw [decide_eq_true hs0, decide_eq_true hs1, if_neg (by simp),
        if_neg (by simp), if_neg hnn, if_neg hnn, ha0]
    dsimp only
    rw [if_pos hlt]
  · intro a1 hgate0 hnn1 ha1 hlt1 f
    apply mintPosition_error
    rw [mintPreflight_reduce { env with assemble := f } u params session
      res pool hch hsess hdisc hsucc hpool hex]
    unfold mintChecks checkBalance allowanceGate checkAllowance
    dsimp only
    rw [hb0, hb1]
    dsimp only
    rw [decide_eq_true hs0, decide_eq_true hs1, if_neg (by simp),
        if_neg (by simp)]
    rcases allowanceGate_ok_inversion env session.walletAddress
        pool.poolKey.currency0 pool.token0Symbol
        (env.positionManagerAddress params.chainId)
        (amountsForPool params.token0 pool.poolKey.currency0
          params.amount0Desired params.amount1Desired).1 params.chainId
        hgate0 with hnat | ⟨hnne, a0x, ha0x, hge⟩
    · rw [if_pos hnat]
      dsimp only
      rw [if_neg hnn1, if_neg hnn1, ha1]
      dsimp only
      rw [if_pos hlt1]
    · rw [if_neg hnne, if_neg hnne, ha0x]
      dsimp only
      rw [if_neg hge]
      dsimp only
      rw [if_neg hnn1, if_neg hnn1, ha1]
      dsimp only
      rw [if_pos hlt1]

/-- Concrete mint environment refuting C1: the wallet's allowance (99) is
below the desired amount for `currency0` (100), while the assembly
oracle derives post-assembly amounts of 0 for both legs. -/
def envC1 : MintEnv :=
  { chains := fun c => c == 1,
    positionManagerAddress := fun _ => "0x1111111111111111111111111111111111111111",
    tokenInfo := fun addr _ => .ok { address := addr, symbol := "T1", decimals := 18 },
    readPool := fun k _ =>
      if k.fee == 500 then .ok ({ sqrtPriceX96 := 1, tick := 0 }, 0)
      else .ok ({ sqrtPriceX96 := 0, tick := 0 }, 0),
    getSession := fun _ =>
      some
        { userId := "u1", walletId := "w1",
          walletAddress := "0x0101010101010101010101010101010101010101" },
    getBalance := fun _ _ _ => .ok 1000000000,
    getAllowance := fun _ _ _ _ => .ok 99,
    assemble := fun _ =>
      { liquidity := 7, amount0 := 0, amount1 := 0, calldata := "0xdata", value := 0 },
    transact := fun _ _ => { success := true, hash := some "0xhash1" } }

/-- Mint parameters used with `envC1`. -/
def paramsC1 : V4MintSimpleParams :=
  { token0 := "0xaa", token1 := "0xbb", amount0Desired := 100,
    amount1Desired := 200, chainId := 1 }

/-- Assembly input `mintPosition` would hand to the SDK for `envC1` and
`paramsC1` (never reached: the allowance gate rejects first). -/
def asmInputC1 : AssemblyInput :=
  { poolKey := ⟨"0xaa", "0xbb", 500, 10, NATIVE_ETH_ADDRESS⟩,
    sqrtPriceX96 := 1, liquidity := 0, currentTick := 0,
    tickLower := -887270, tickUpper := 887270,
    amount0 := 100, amount1 := 200 }

/-- Counterexample to C1: the position assembly derives a required amount
of 0 for the `currency0` leg, so an allowance of 99 satisfies the
post-assembly requirement — yet the mint fails with the `not approved`
error, because the gate compares the allowance against the caller's
desired amount (100), not the post-assembly amount. -/
theorem mint_allowance_postassembly_cex :
    (envC1.assemble asmInputC1).amount0 = 0 ∧
    (envC1.assemble asmInputC1).amount1 = 0 ∧
    envC1.getAllowance "0x0101010101010101010101010101010101010101" "0xaa"
      "0x1111111111111111111111111111111111111111" 1 = .ok 99 ∧
    mintPosition envC1 "u1" paramsC1 =
      { success := false, error := some (.notApproved "T1" "0xaa") } :=
  ⟨rfl, rfl, rfl, by decide⟩

/-- Pool discovered by `envC1` for `paramsC1`. -/
def poolC1 : PoolInfo :=
  { poolExists := true,
    poolId := some (poolIdOf ⟨"0xaa", "0xbb", 500, 10, NATIVE_ETH_ADDRESS⟩),
    poolKey := ⟨"0xaa", "0xbb", 500, 10, NATIVE_ETH_ADDRESS⟩,
    currentTick := 0, sqrtPriceX96 := 1, liquidity := 0,
    token0Symbol := "T1", token1Symbol := "T1",
    token0Decimals := 18, token1Decimals := 18 }

/-- Discovery result of `envC1` for `paramsC1`. -/
def resC1 : V4PoolDiscoveryResult :=
  { success := true, pool := some poolC1, error := none }

/-- Mint environment for the `currency1` half of the C1 witness: the
`currency0` allowance is ample while the `currency1` allowance (99) is
below that leg's desired amount (200). -/
def envC1b : MintEnv :=
  { chains := fun c => c == 1,
    positionManagerAddress := fun _ => "0x1111111111111111111111111111111111111111",
    tokenInfo := fun addr _ => .ok { address := addr, symbol := "T1b", decimals := 18 },
    readPool := fun k _ =>
      if k.fee == 500 then .ok ({ sqrtPriceX96 := 1, tick := 0 }, 0)
      else .ok ({ sqrtPriceX96 := 0, tick := 0 }, 0),
    getSession := fun _ =>
      some
        { userId := "u1", walletId := "w1",
          walletAddress := "0x0101010101010101010101010101010101010101" },
    getBalance := fun _ _ _ => .ok 1000000000,
    getAllowance := fun _ token _ _ =>
      if token == "0xbb" then .ok 99 else .ok 1000000000,
    assemble := fun _ =>
      { liquidity := 7, amount0 := 0, amount1 := 0, calldata := "0xdata", value := 0 },
    transact := fun _ _ => { success := true, hash := some "0xhash1b" } }

/-- Pool discovered by `envC1b` for `paramsC1`. -/
def poolC1b : PoolInfo :=
  { poolExists := true,
    poolId := some (poolIdOf ⟨"0xaa", "0xbb", 500, 10, NATIVE_ETH_ADDRESS⟩),
    poolKey := ⟨"0xaa", "0xbb", 500, 10, NATIVE_ETH_ADDRESS⟩,
    currentTick := 0, sqrtPriceX96 := 1, liquidity := 0,
    token0Symbol := "T1b", token1Symbol := "T1b",
    token0Decimals := 18, token1Decimals := 18 }

/-- Discovery result of `envC1b` for `paramsC1`. -/
def resC1b : V4PoolDiscoveryResult :=
  { success := true, pool := some poolC1b, error := none }

/-- Witness for the amended C1 at concrete environments, one per token
leg: a `currency0` allowance shortfall names `currency0`, and with the
`currency0` gate passing, a `currency1` allowance shortfall names
`currency1`. -/
theorem mint_allowance_checked_against_desired_witness :
    mintPosition envC1 "u1" paramsC1 =
      { success := false, error := some (.notApproved "T1" "0xaa") } ∧
    mintPosition envC1b "u1" paramsC1 =
      { success := false, error := some (.notApproved "T1b" "0xbb") } := by
  have h0 := mint_allowance_checked_against_desired envC1 "u1" paramsC1
    { userId := "u1", walletId := "w1",
      walletAddress := "0x0101010101010101010101010101010101010101" }
    resC1 poolC1 1000000000 1000000000 rfl rfl rfl rfl rfl rfl rfl rfl
    (by decide) (by decide)
  have h1 := mint_allowance_checked_against_desired envC1b "u1" paramsC1
    { userId := "u1", walletId := "w1",
      walletAddress := "0x0101010101010101010101010101010101010101" }
    resC1b poolC1b 1000000000 1000000000 rfl rfl rfl rfl rfl rfl rfl rfl
    (by decide) (by decide)
  exact ⟨h0.1 99 (by decide) rfl (by decide) envC1.assemble,
         h1.2 99 rfl (by decide) rfl (by decide) envC1b.assemble⟩

/-! Helper lemmas on the policy layer. -/

/-- Characterization of `validatePolicy`: it accepts exactly the policies
whose owner is the configured signer and whose rule count (1) and
first-rule condition count (3) match the locally computed expected
policy; no other field is inspected. -/
theorem validatePolicy_ok_iff (env : PolicyEnv) (policy : Policy)
    (signerId : String) (hsig : env.signerId = some signerId) :
    validatePolicy env policy = .ok () ↔
      (policy.owner_id = signerId ∧ policy.rules.length = 1 ∧
       (match policy.rules.head? with
        | some r => r.conditions.length
        | none => 0) = 3) := by
  unfold validatePolicy
  rw [hsig]
  dsimp only
  by_cases h1 : policy.owner_id ≠ signerId
  · rw [if_pos h1]
    simp [h1]
  · rw [if_neg h1]
    have h1b : policy.owner_id = signerId := not_not.mp h1
    have e1 : (PolicyConfig.getPolicyDefinition env.getAddress signerId).rules.length = 1 := rfl
    rw [e1]
    by_cases h2 : policy.rules.length = 1
    · rw [if_neg (not_not_intro h2)]
      have e2 : (match (PolicyConfig.getPolicyDefinition env.getAddress
          signerId).rules.head? with
        | some r => r.conditions.length
        | none => 0) = 3 := rfl
      rw [e2]
      by_cases h3 : (match policy.rules.head? with
        | some r => r.conditions.length
        | none => 0) = 3
      · rw [if_neg (not_not_intro h3.symm)]
        simp [h1b, h2, h3]
      · rw [if_pos (fun hc => h3 hc.symm)]
        simp [h3]
    · rw [if_pos h2]
      simp [h2]

/-- C4: with a pinned policy id whose fetch succeeds, initialization
succeeds exactly when the fetched policy's owner equals the configured
signer identity and its rule count and first-rule condition count match
the locally computed expected policy — any owner or cardinality mismatch
yields a failure result regardless of the other fields. -/
theorem initPolicies_pinned_fail_closed (env : PolicyEnv) (st : PMState)
    (store : RemoteStore) (signerId pid : String) (policy : Policy)
    (hsig : env.signerId = some signerId)
    (happ : env.appId ≠ none) (hsec : env.appSecret ≠ none)
    (hpin : env.pinnedPolicyId = some pid)
    (hget : env.getPolicy pid = .ok policy) :
    (initPolicies env st store).1.success = true ↔
      (policy.owner_id = signerId ∧ policy.rules.length = 1 ∧
       (match policy.rules.head? with
        | some r => r.conditions.length
        | none => 0) = 3) := by
  have hval := validatePolicy_ok_iff env policy signerId hsig
  unfold initPolicies
  rw [hsig]
  dsimp only
  rw [if_neg (by push_neg; exact ⟨happ, hsec⟩), hpin]
  dsimp only
  rw [hget]
  dsimp only
  cases hv : validatePolicy env policy with
  | error e =>
    refine iff_of_false (by simp) (fun hr => ?_)
    have := hval.mpr hr
    rw [hv] at this
    exact Except.noConfusion this
  | ok u =>
    cases u
    exact iff_of_true rfl (hval.mp hv)

/-- Fetched policy used by the C4 witness: owner and cardinality match
the expected policy while every other field differs. -/
def policyC4 : Policy :=
  { id := "pol-7", version := "9.9", name := "some other name",
    chain_type := "ethereum", owner_id := "signer-1",
    rules := [
      { name := "r", method := "m",
        conditions := [
          { field_source := "x", field := "y", operator := "eq", value := .str "z" },
          { field_source := "x", field := "y", operator := "eq", value := .str "z" },
          { field_source := "x", field := "y", operator := "eq", value := .str "z" } ],
        action := "DENY" } ],
    created_at := 42 }

/-- Policy environment used by the C4 witness. -/
def envC4 : PolicyEnv :=
  { signerId := some "signer-1", appId := some "app", appSecret := some "secret",
    pinnedPolicyId := some "pol-7", getAddress := fun a => a,
    getPolicy := fun _ => .ok policyC4 }

/-- Witness for C4: initialization succeeds on a pinned policy whose
owner and rule/condition cardinality match. -/
theorem initPolicies_pinned_fail_closed_witness :
    (initPolicies envC4 { policyIds := [], initialized := false }
      { nextId := 0, created := [] }).1.success = true := by
  have h := initPolicies_pinned_fail_closed envC4
    { policyIds := [], initialized := false } { nextId := 0, created := [] }
    "signer-1" "pol-7" policyC4 rfl (by decide) (by decide) rfl rfl
  exact h.mpr (by decide)

/-- Result of a successful pinned-policy initialization: the fetched
policy's id, the Active state, and an untouched remote store. -/
theorem initPolicies_pinned_result (env : PolicyEnv) (st : PMState)
    (store : RemoteStore) (pid signerId : String) (policy : Policy)
    (hsig : env.signerId = some signerId)
    (happ : env.appId ≠ none) (hsec : env.appSecret ≠ none)
    (hpin : env.pinnedPolicyId = some pid)
    (hget : env.getPolicy pid = .ok policy)
    (hval : validatePolicy env policy = .ok ()) :
    initPolicies env st store =
      ({ success := true, policyIds := some [policy.id] },
       { policyIds := [policy.id], initialized := true }, store) := by
  unfold initPolicies
  rw [hsig]
  dsimp only
  rw [if_neg (by push_neg; exact ⟨happ, hsec⟩), hpin]
  dsimp only
  rw [hget]
  dsimp only
  rw [hval]

/-- Inversion of a successful pinned-policy initialization: the
environment must have been fully configured, the fetch must have
succeeded and validation must have passed. -/
theorem initPolicies_pinned_success_inversion (env : PolicyEnv)
    (st : PMState) (store : RemoteStore) (pid : String)
    (hpin : env.pinnedPolicyId = some pid)
    (hsucc : (initPolicies env st store).1.success = true) :
    ∃ signerId policy, env.signerId = some signerId ∧ env.appId ≠ none ∧
      env.appSecret ≠ none ∧ env.getPolicy pid = .ok policy ∧
      validatePolicy env policy = .ok () := by
  unfold initPolicies at hsucc
  cases hsig : env.signerId with
  | none =>
    rw [hsig] at hsucc
    simp at hsucc
  | some signerId =>
    rw [hsig] at hsucc
    dsimp only at hsucc
    by_cases hcred : env.appId = none ∨ env.appSecret = none
    · rw [if_pos hcred] at hsucc
      simp at hsucc
    · rw [if_neg hcred] at hsucc
      push_neg at hcred
      rw [hpin] at hsucc
      dsimp only at hsucc
      cases hget : env.getPolicy pid with
      | error e =>
        rw [hget] at hsucc
        simp at hsucc
      | ok policy =>
        rw [hget] at hsucc
        dsimp only at hsucc
        cases hval : validatePolicy env policy with
        | error e =>
          rw [hval] at hsucc
          simp at hsucc
        | ok u =>
          cases u
          exact ⟨signerId, policy, rfl, hcred.1, hcred.2, rfl, hval⟩

/-- C9 amended: with a pinned policy id, initialization is idempotent —
after a successful run, a second run from the resulting state returns
the identical result and state, and neither run touches the remote
policy store (no policy is ever created on this path). -/
theorem initPolicies_pinned_idempotent (env : PolicyEnv) (st : PMState)
    (store : RemoteStore) (pid : String)
    (hpin : env.pinnedPolicyId = some pid)
    (hsucc : (initPolicies env st store).1.success = true) :
    initPolicies env (initPolicies env st store).2.1
        (initPolicies env st store).2.2 =
      initPolicies env st store ∧
    (initPolicies env st store).2.2 = store := by
  obtain ⟨signerId, policy, hsig, happ, hsec, hget, hval⟩ :=
    initPolicies_pinned_success_inversion env st store pid hpin hsucc
  have h1 := initPolicies_pinned_result env st store pid signerId policy
    hsig happ hsec hpin hget hval
  constructor
  · rw [h1]
    exact initPolicies_pinned_result env _ store pid signerId policy
      hsig happ hsec hpin hget hval
  · rw [h1]

/-- Policy environment for the C9 counterexample and witnesses: no
pinned policy id, so every initialization run creates a policy. -/
def envC9 : PolicyEnv :=
  { signerId := some "signer-9", appId := some "app", appSecret := some "secret",
    pinnedPolicyId := none, getAddress := fun a => a,
    getPolicy := fun _ => .error "not found" }

/-- Counterexample to C9: without a pinned policy id, a second
`initialize` run after a successful (Active) first run creates a second
remote policy and returns different policy identifiers. -/
theorem initPolicies_recreates_policy_cex :
    (initPolicies envC9 { policyIds := [], initialized := false }
      { nextId := 0, created := [] }).1.success = true ∧
    (initPolicies envC9 { policyIds := [], initialized := false }
      { nextId := 0, created := [] }).2.1.initialized = true ∧
    (initPolicies envC9 { policyIds := [], initialized := false }
      { nextId := 0, created := [] }).2.2.created.length = 1 ∧
    (initPolicies envC9
      (initPolicies envC9 { policyIds := [], initialized := false }
        { nextId := 0, created := [] }).2.1
      (initPolicies envC9 { policyIds := [], initialized := false }
        { nextId := 0, created := [] }).2.2).1.success = true ∧
    (initPolicies envC9
      (initPolicies envC9 { policyIds := [], initialized := false }
        { nextId := 0, created := [] }).2.1
      (initPolicies envC9 { policyIds := [], initialized := false }
        { nextId := 0, created := [] }).2.2).2.2.created.length = 2 ∧
    (initPolicies envC9
      (initPolicies envC9 { policyIds := [], initialized := false }
        { nextId := 0, created := [] }).2.1
      (initPolicies envC9 { policyIds := [], initialized := false }
        { nextId := 0, created := [] }).2.2).1.policyIds ≠
      (initPolicies envC9 { policyIds := [], initialized := false }
        { nextId := 0, created := [] }).1.policyIds := by
  decide

/-- Policy environment for the amended C9 witness: a pinned policy whose
validation passes. -/
def envC9w : PolicyEnv :=
  { signerId := some "signer-9", appId := some "app", appSecret := some "secret",
    pinnedPolicyId := some "pol-9", getAddress := fun a => a,
    getPolicy := fun _ =>
      .ok { id := "pol-9", version := "1.0", name := "n",
            chain_type := "ethereum", owner_id := "signer-9",
            rules := [
              { name := "r", method := "m",
                conditions := [
                  { field_source := "x", field := "y", operator := "eq",
                    value := .str "z" },
                  { field_source := "x", field := "y", operator := "eq",
                    value := .str "z" },
                  { field_source := "x", field := "y", operator := "eq",
                    value := .str "z" } ],
                action := "ALLOW" } ],
            created_at := 0 } }

/-- Witness for the amended C9 at a concrete pinned environment. -/
theorem initPolicies_pinned_idempotent_witness :
    initPolicies envC9w
        (initPolicies envC9w { policyIds := [], initialized := false }
          { nextId := 0, created := [] }).2.1
        (initPolicies envC9w { policyIds := [], initialized := false }
          { nextId := 0, created := [] }).2.2 =
      initPolicies envC9w { policyIds := [], initialized := false }
        { nextId := 0, created := [] } ∧
    (initPolicies envC9w { policyIds := [], initialized := false }
      { nextId := 0, created := [] }).2.2 = { nextId := 0, created := [] } :=
  initPolicies_pinned_idempotent envC9w
    { policyIds := [], initialized := false } { nextId := 0, created := [] }
    "pol-9" rfl (by decide)

end Uniflow
